import Mathlib

/-!
Shallow embedding of the bathroom renovation pricing engine
(`pricing_engine.py`, `pricing_logic/labor_calc.py`,
`pricing_logic/material_db.py`, `pricing_logic/vat_rules.py`).

Modelling conventions:
* Python floats are modelled as exact rationals (`ℚ`); `round(x, 2)` and
  `round(x, 1)` are modelled by `round2` / `round1` below (round-half-up on
  rationals; Python uses round-half-even on binary floats, which agrees away
  from exact half-way ties — all concrete inputs used below avoid ties).
* Python dictionaries with a fixed key set become structures; keys that are
  present only on some paths (the fallback quote's `error` key, the trimmed
  material line of the fallback quote) become `Option` fields, where `none`
  models an absent key.
* Python dict lookups over the static configuration tables become
  `List.lookup` over association lists in the source's insertion order.
* Fallible operations that the source signals with an `{"error": ...}`
  dictionary are modelled with `Except String`.
* Wall-clock values (`datetime.now()`) are passed in as an explicit `now`
  string parameter; the `last_updated` timestamp field of materials is
  omitted from the model for the same reason.
-/

/-- Model of Python `round(x, 2)`: two-decimal rounding. -/
def round2 (x : ℚ) : ℚ := ((round (x * 100) : ℤ) : ℚ) / 100

/-- Model of Python `round(x, 1)`: one-decimal rounding. -/
def round1 (x : ℚ) : ℚ := ((round (x * 10) : ℤ) : ℚ) / 10

/-! ### VAT calculator (`pricing_logic/vat_rules.py`, `VATCalculatorForQuotes`) -/

/-- The `self.vat_rates` table: standard 20 percent rate. -/
def vat_rate_standard : ℚ := 20 / 100

/-- The `self.vat_rates` table: renovation 10 percent rate. -/
def vat_rate_renovation : ℚ := 10 / 100

/-- The `self.vat_rates` table: energy-efficiency 5.5 percent rate. -/
def vat_rate_energy_efficiency : ℚ := 55 / 1000

/-- Result dictionary of `calculate_simple_renovation_vat`. -/
structure VATResult where
  materials_cost : ℚ
  labor_cost : ℚ
  subtotal : ℚ
  vat_rate : ℚ
  vat_amount : ℚ
  total_including_vat : ℚ
  rate_description : String
  building_age_years : ℤ
  is_energy_renovation : Bool
deriving DecidableEq

/-- Embedding of `VATCalculatorForQuotes.calculate_simple_renovation_vat`
(vat_rules.py lines 48-87). -/
def calculate_simple_renovation_vat (materials_cost labor_cost : ℚ)
    (building_age_years : ℤ) (is_energy_renovation : Bool) : VATResult :=
  let subtotal := materials_cost + labor_cost
  let vat_rate :=
    if is_energy_renovation = true ∧ 2 ≤ building_age_years then
      vat_rate_energy_efficiency
    else if 2 ≤ building_age_years then vat_rate_renovation
    else vat_rate_standard
  let rate_description :=
    if is_energy_renovation = true ∧ 2 ≤ building_age_years then
      "Energy efficiency renovation (5.5%)"
    else if 2 ≤ building_age_years then
      "Renovation work on building >2 years (10%)"
    else "New construction rate (20%)"
  let vat_amount := subtotal * vat_rate
  let total_including_vat := subtotal + vat_amount
  { materials_cost := materials_cost
    labor_cost := labor_cost
    subtotal := subtotal
    vat_rate := vat_rate
    vat_amount := round2 vat_amount
    total_including_vat := round2 total_including_vat
    rate_description := rate_description
    building_age_years := building_age_years
    is_energy_renovation := is_energy_renovation }

/-- Model of Python `task_type.replace("_", "")` (pricing_engine.py line
158): removing every underscore.  (Defined on the underlying character list
so that it reduces during kernel evaluation.) -/
def py_remove_underscores (s : String) : String :=
  String.mk (s.data.filter (fun c => !(c == '_')))

/-- Model of Python `str.lower()`, mapping `Char.toLower` over the
characters.  (Equivalent to `String.toLower`; defined on the underlying
character list so that it reduces during kernel evaluation.) -/
def py_lower (s : String) : String := String.mk (s.data.map Char.toLower)

/-! ### Labor calculator (`pricing_logic/labor_calc.py`, `LaborCalculator`) -/

/-- The `SkillLevel` enum. -/
inductive SkillLevel where
  | helper
  | basic
  | skilled
  | specialist
deriving DecidableEq

/-- The string payload of each `SkillLevel` enum member. -/
def SkillLevel.value : SkillLevel → String
  | .helper => "helper"
  | .basic => "basic"
  | .skilled => "skilled"
  | .specialist => "specialist"

/-- The `self.base_rates` table (euros per hour, Marseille baseline). -/
def base_rates : SkillLevel → ℚ
  | .helper => 22
  | .basic => 30
  | .skilled => 42
  | .specialist => 65

/-- The `self.regional_multipliers` table of `LaborCalculator`. -/
def labor_regional_multipliers : List (String × ℚ) :=
  [("paris", 145 / 100), ("lyon", 120 / 100), ("marseille", 1),
   ("toulouse", 112 / 100), ("nice", 130 / 100), ("nantes", 105 / 100),
   ("strasbourg", 118 / 100), ("bordeaux", 115 / 100), ("lille", 110 / 100),
   ("montpellier", 103 / 100), ("rennes", 106 / 100), ("reims", 102 / 100)]

/-- One entry of the `self.task_definitions` table of `LaborCalculator`. -/
structure LaborTaskDef where
  skill_level : SkillLevel
  hours_per_sqm : ℚ
  minimum_hours : ℚ
  complexity_factors : List (String × ℚ)
deriving DecidableEq

/-- The `self.task_definitions` table of `LaborCalculator`. -/
def labor_task_definitions : List (String × LaborTaskDef) :=
  [("demolition",
    { skill_level := .basic, hours_per_sqm := 15 / 10, minimum_hours := 3,
      complexity_factors :=
        [("thick_walls", 13 / 10), ("tight_access", 12 / 10),
         ("electrical_obstacles", 12 / 10)] }),
   ("tiling",
    { skill_level := .skilled, hours_per_sqm := 28 / 10, minimum_hours := 6,
      complexity_factors :=
        [("small_tiles", 14 / 10), ("pattern_work", 16 / 10),
         ("curved_surfaces", 15 / 10), ("waterproofing", 13 / 10)] }),
   ("plumbing",
    { skill_level := .specialist, hours_per_sqm := 25 / 10, minimum_hours := 4,
      complexity_factors :=
        [("new_connections", 15 / 10), ("old_building", 14 / 10),
         ("waterproofing", 12 / 10)] }),
   ("electrical",
    { skill_level := .specialist, hours_per_sqm := 2, minimum_hours := 3,
      complexity_factors :=
        [("new_circuit", 15 / 10), ("bathroom_safety", 13 / 10),
         ("concealed_wiring", 14 / 10)] }),
   ("installation",
    { skill_level := .skilled, hours_per_sqm := 18 / 10, minimum_hours := 2,
      complexity_factors :=
        [("heavy_items", 13 / 10), ("custom_fitting", 14 / 10),
         ("wall_mounting", 11 / 10)] }),
   ("painting",
    { skill_level := .basic, hours_per_sqm := 1, minimum_hours := 4,
      complexity_factors :=
        [("multiple_coats", 14 / 10), ("detail_work", 13 / 10),
         ("moisture_resistant", 11 / 10)] })]

/-- The `self.seasonal_multipliers` table, keyed by month. -/
def seasonal_multipliers : List (ℕ × ℚ) :=
  [(1, 95 / 100), (2, 95 / 100), (3, 1), (4, 115 / 100), (5, 125 / 100),
   (6, 125 / 100), (7, 135 / 100), (8, 135 / 100), (9, 115 / 100),
   (10, 115 / 100), (11, 95 / 100), (12, 95 / 100)]

/-- Result dictionary of `LaborCalculator.calculate_task_labor`. -/
structure LaborResult where
  task_type : String
  skill_required : String
  base_hours : ℚ
  billable_hours : ℚ
  final_hours : ℚ
  base_hourly_rate : ℚ
  regional_multiplier : ℚ
  complexity_multiplier : ℚ
  seasonal_multiplier : ℚ
  rush_multiplier : ℚ
  final_hourly_rate : ℚ
  base_labor_cost : ℚ
  applied_complexity_factors : List (String × ℚ)
  area_or_units : ℚ
deriving DecidableEq

/-- The complexity-factor loop of `calculate_task_labor` (labor_calc.py lines
150-161): the running multiplier together with the applied-factor list. -/
def complexity_of (task_def : LaborTaskDef) (factors : List String) :
    ℚ × List (String × ℚ) :=
  factors.foldl
    (fun acc factor =>
      match task_def.complexity_factors.lookup factor with
      | some factor_multiplier =>
          (acc.1 * factor_multiplier, acc.2 ++ [(factor, factor_multiplier)])
      | none => acc)
    (1, [])

/-- Embedding of `LaborCalculator.calculate_task_labor` (labor_calc.py lines
121-201).  `target_month` models `target_date.month` of the optional
`target_date` argument, the only part of the date the source reads. -/
def calculate_task_labor (task_type : String) (area_or_units : ℚ)
    (region : String) (complexity_factors : Option (List String))
    (target_month : Option ℕ) (rush_job : Bool) : Except String LaborResult :=
  match labor_task_definitions.lookup task_type with
  | none => .error ("Unknown task type: " ++ task_type)
  | some task_def =>
    let skill_level := task_def.skill_level
    let base_hours := area_or_units * task_def.hours_per_sqm
    let billable_hours := max base_hours task_def.minimum_hours
    let comp := complexity_of task_def (complexity_factors.getD [])
    let complexity_multiplier := comp.1
    let applied_factors := comp.2
    let final_hours := billable_hours * complexity_multiplier
    let base_hourly_rate := base_rates skill_level
    let regional_multiplier :=
      (labor_regional_multipliers.lookup (py_lower region)).getD 1
    let regional_rate := base_hourly_rate * regional_multiplier
    let seasonal_multiplier :=
      match target_month with
      | some month => (seasonal_multipliers.lookup month).getD 1
      | none => 1
    let rush_multiplier : ℚ := if rush_job then 18 / 10 else 1
    let final_hourly_rate := regional_rate * seasonal_multiplier * rush_multiplier
    let base_labor_cost := final_hours * final_hourly_rate
    .ok
      { task_type := task_type
        skill_required := skill_level.value
        base_hours := round1 base_hours
        billable_hours := round1 billable_hours
        final_hours := round1 final_hours
        base_hourly_rate := base_hourly_rate
        regional_multiplier := regional_multiplier
        complexity_multiplier := round2 complexity_multiplier
        seasonal_multiplier := round2 seasonal_multiplier
        rush_multiplier := rush_multiplier
        final_hourly_rate := round2 final_hourly_rate
        base_labor_cost := round2 base_labor_cost
        applied_complexity_factors := applied_factors
        area_or_units := area_or_units }

/-! ### Material database (`pricing_logic/material_db.py`, `MaterialDatabase`) -/

/-- The `Material` dataclass (the wall-clock `last_updated` field is omitted
from the model). -/
structure Material where
  name : String
  category : String
  unit : String
  base_cost : ℚ
  supplier_margin : ℚ
  quality_grade : String
  availability_score : ℚ
  supplier_id : Option String
deriving DecidableEq

/-- The default material catalog built by `_initialize_default_materials`. -/
def default_materials : List (String × Material) :=
  [("ceramic_floor_basic",
    { name := "Ceramic Floor Tiles - Basic", category := "flooring",
      unit := "m²", base_cost := 22, supplier_margin := 15 / 100,
      quality_grade := "basic", availability_score := 95 / 100,
      supplier_id := none }),
   ("ceramic_floor_standard",
    { name := "Ceramic Floor Tiles - Standard", category := "flooring",
      unit := "m²", base_cost := 35, supplier_margin := 18 / 100,
      quality_grade := "standard", availability_score := 90 / 100,
      supplier_id := none }),
   ("wall_tiles_standard",
    { name := "Wall Tiles - Standard", category := "tiling",
      unit := "m²", base_cost := 28, supplier_margin := 15 / 100,
      quality_grade := "standard", availability_score := 90 / 100,
      supplier_id := none }),
   ("tile_adhesive",
    { name := "Flexible Tile Adhesive", category := "consumables",
      unit := "kg", base_cost := 28 / 10, supplier_margin := 10 / 100,
      quality_grade := "standard", availability_score := 95 / 100,
      supplier_id := none }),
   ("waterproof_membrane",
    { name := "Waterproof Membrane", category := "consumables",
      unit := "m²", base_cost := 12, supplier_margin := 15 / 100,
      quality_grade := "standard", availability_score := 90 / 100,
      supplier_id := none }),
   ("shower_mixer_basic",
    { name := "Shower Mixer - Basic Chrome", category := "plumbing",
      unit := "unit", base_cost := 85, supplier_margin := 25 / 100,
      quality_grade := "basic", availability_score := 95 / 100,
      supplier_id := none }),
   ("shower_mixer_premium",
    { name := "Shower Mixer - Premium Thermostatic", category := "plumbing",
      unit := "unit", base_cost := 220, supplier_margin := 30 / 100,
      quality_grade := "premium", availability_score := 75 / 100,
      supplier_id := none }),
   ("toilet_standard",
    { name := "Wall-hung Toilet - Standard", category := "plumbing",
      unit := "unit", base_cost := 280, supplier_margin := 20 / 100,
      quality_grade := "standard", availability_score := 85 / 100,
      supplier_id := none }),
   ("vanity_unit_60cm",
    { name := "Vanity Unit 60cm with Basin", category := "installation",
      unit := "unit", base_cost := 320, supplier_margin := 25 / 100,
      quality_grade := "standard", availability_score := 80 / 100,
      supplier_id := none }),
   ("pipes_pvc",
    { name := "PVC Pipes and Fittings", category := "plumbing",
      unit := "m", base_cost := 85 / 10, supplier_margin := 15 / 100,
      quality_grade := "standard", availability_score := 95 / 100,
      supplier_id := none }),
   ("bathroom_paint_basic",
    { name := "Bathroom Paint - Anti-mold Basic", category := "painting",
      unit := "liter", base_cost := 15, supplier_margin := 12 / 100,
      quality_grade := "basic", availability_score := 95 / 100,
      supplier_id := none }),
   ("primer",
    { name := "Wall Primer - Bathroom", category := "painting",
      unit := "liter", base_cost := 12, supplier_margin := 12 / 100,
      quality_grade := "standard", availability_score := 95 / 100,
      supplier_id := none }),
   ("demolition_materials",
    { name := "Demolition Supplies", category := "consumables",
      unit := "m²", base_cost := 5, supplier_margin := 10 / 100,
      quality_grade := "basic", availability_score := 95 / 100,
      supplier_id := none }),
   ("electrical_supplies",
    { name := "Electrical Supplies - Bathroom", category := "electrical",
      unit := "unit", base_cost := 45, supplier_margin := 20 / 100,
      quality_grade := "standard", availability_score := 90 / 100,
      supplier_id := none })]

/-- The `self.regional_multipliers` table set up by `_setup_regional_pricing`. -/
def material_regional_multipliers : List (String × ℚ) :=
  [("paris", 135 / 100), ("lyon", 115 / 100), ("marseille", 1),
   ("toulouse", 108 / 100), ("nice", 125 / 100), ("nantes", 105 / 100),
   ("strasbourg", 118 / 100), ("bordeaux", 112 / 100), ("lille", 110 / 100),
   ("montpellier", 103 / 100), ("rennes", 106 / 100), ("reims", 102 / 100)]

/-- The mutable state of a `MaterialDatabase` instance. -/
structure MaterialDatabase where
  materials : List (String × Material)
  regional_multipliers : List (String × ℚ)
deriving DecidableEq

/-- A `MaterialDatabase()` constructed with the default catalog. -/
def defaultMaterialDatabase : MaterialDatabase :=
  { materials := default_materials,
    regional_multipliers := material_regional_multipliers }

/-- Embedding of `MaterialDatabase.get_material` (material_db.py lines
216-244): regional pricing applied on read. -/
def get_material (db : MaterialDatabase) (material_id region : String) :
    Option Material :=
  match db.materials.lookup material_id with
  | none => none
  | some base_material =>
    let regional_multiplier :=
      (db.regional_multipliers.lookup (py_lower region)).getD 1
    some { base_material with
            base_cost := base_material.base_cost * regional_multiplier }

/-- Result dictionary of `MaterialDatabase.get_cost_with_margin`. -/
structure CostInfo where
  material_id : String
  name : String
  quantity : ℚ
  unit : String
  unit_cost : ℚ
  base_cost : ℚ
  margin : ℚ
  total_cost : ℚ
  availability_score : ℚ
  quality_grade : String
deriving DecidableEq

/-- Embedding of `MaterialDatabase.get_cost_with_margin` (material_db.py lines
246-269). -/
def get_cost_with_margin (db : MaterialDatabase) (material_id : String)
    (quantity : ℚ) (region : String) : Except String CostInfo :=
  match get_material db material_id region with
  | none => .error ("Material " ++ material_id ++ " not found")
  | some material =>
    let base_cost := material.base_cost * quantity
    let margin_amount := base_cost * material.supplier_margin
    let total_cost := base_cost + margin_amount
    .ok
      { material_id := material_id
        name := material.name
        quantity := quantity
        unit := material.unit
        unit_cost := material.base_cost
        base_cost := round2 base_cost
        margin := round2 margin_amount
        total_cost := round2 total_cost
        availability_score := material.availability_score
        quality_grade := material.quality_grade }

/-- The exact (unrounded) total cost that `get_cost_with_margin` computes
before its boundary rounding: `base_cost + base_cost * supplier_margin`
over the regionally priced material (0 when the material is unknown). -/
def raw_cost_with_margin (db : MaterialDatabase) (material_id : String)
    (quantity : ℚ) (region : String) : ℚ :=
  match get_material db material_id region with
  | none => 0
  | some material =>
    material.base_cost * quantity +
      material.base_cost * quantity * material.supplier_margin

/-! ### Substring machinery for the engine's energy check

`pricing_engine.py` line 194 decides the energy-renovation flag with
`any("energy" in str(task).lower() for task in tasks)`.  The model below
embeds Python's substring test (`in`) over character lists and a rendering
of the detailed-task dictionary's `str()` form. -/

/-- Boolean test that `pat` is an initial segment of `s` (the inner loop of a
substring scan). -/
def leadsB (pat s : List Char) : Bool :=
  match pat, s with
  | [], _ => true
  | _ :: _, [] => false
  | a :: as, b :: bs => a == b && leadsB as bs

/-- Boolean model of Python's substring operator `pat in s`. -/
def occursB (pat s : List Char) : Bool :=
  match s with
  | [] => pat.isEmpty
  | _ :: t => leadsB pat s || occursB pat t

/-- Propositional form of the substring test: `pat` occurs contiguously
inside `s`. -/
def OccursIn (pat s : List Char) : Prop := occursB pat s = true

/-- The character list of a string. -/
def str_chars (s : String) : List Char := s.data

/-- The pattern searched for by the engine's energy check. -/
def energy_chars : List Char := str_chars "energy"

/-- Lowercasing a character list (the model of `.lower()` applied to a
rendered value). -/
def lower_chars (s : List Char) : List Char := s.map Char.toLower

/-- The decimal digit character for `n % 10`. -/
def digit_char (n : ℕ) : Char := Char.ofNat (48 + n % 10)

/-- Digit rendering of a natural number, by structural recursion on a fuel
bound (so that it reduces during kernel evaluation). -/
def nat_chars_aux : ℕ → ℕ → List Char
  | 0, _ => []
  | fuel + 1, n =>
    if n < 10 then [digit_char n]
    else nat_chars_aux fuel (n / 10) ++ [digit_char (n % 10)]

/-- Digit rendering of a natural number.  (Stands in for Python's numeric
rendering inside `str(dict)`; the only property the development uses is that
it produces no letters.) -/
def nat_chars (n : ℕ) : List Char := nat_chars_aux (n + 1) n

/-- Sign-and-digit rendering of an integer. -/
def int_chars (i : ℤ) : List Char :=
  if i < 0 then '-' :: nat_chars i.natAbs else nat_chars i.natAbs

/-- Rendering of a rational (stands in for Python's float rendering inside
`str(dict)`; produces only digits, a sign and a fraction slash -- in
particular no letters, the only property the development uses). -/
def rat_chars (q : ℚ) : List Char :=
  int_chars q.num ++ (if q.den = 1 then [] else '/' :: nat_chars q.den)

/-- A string value as it appears inside `str(dict)`: surrounded by quotes.
(Python escaping and quote selection are not modelled; they neither create
nor destroy an `"energy"` occurrence since they only touch characters that
are not in the pattern.) -/
def quoted (s : List Char) : List Char := '\'' :: (s ++ ['\''])

/-- Rendering of an optional string field (an absent key's value renders as
`None`, which only arises on the fallback path). -/
def opt_str_chars : Option String → List Char
  | some s => quoted (str_chars s)
  | none => str_chars "None"

/-- Rendering of an optional numeric field. -/
def opt_rat_chars : Option ℚ → List Char
  | some q => rat_chars q
  | none => str_chars "None"

/-! ### Quote assembler (`pricing_engine.py`, `PricingEngine`) -/

/-- The trimmed material dictionary of a detailed task (pricing_engine.py
lines 147-153).  The fallback quote's single material line carries only a
name and a total cost, so the other keys are optional. -/
structure MaterialLine where
  name : String
  quantity : Option ℚ
  unit : Option String
  unit_cost : Option ℚ
  total_cost : ℚ
deriving DecidableEq

/-- A detailed-task dictionary (pricing_engine.py lines 165-175 on the
success path, lines 227-237 for the fallback task).  `complexity_factors`
is absent (`none`) only on the fallback task; `error` is present only
there. -/
structure DetailedTask where
  task_type : String
  description : String
  area_sqm : ℚ
  labor_hours : ℚ
  labor_cost : ℚ
  materials : List MaterialLine
  materials_cost : ℚ
  skill_required : String
  complexity_factors : Option (List String)
  error : Option String
deriving DecidableEq

/-- Rendering of one material dictionary inside `str(task)`. -/
def material_line_chars (m : MaterialLine) : List Char :=
  str_chars "\x7b'name': " ++ quoted (str_chars m.name) ++
  str_chars ", 'quantity': " ++ opt_rat_chars m.quantity ++
  str_chars ", 'unit': " ++ opt_str_chars m.unit ++
  str_chars ", 'unit_cost': " ++ opt_rat_chars m.unit_cost ++
  str_chars ", 'total_cost': " ++ rat_chars m.total_cost ++
  str_chars "\x7d"

/-- Rendering of the materials list inside `str(task)`. -/
def material_list_chars : List MaterialLine → List Char
  | [] => []
  | [m] => material_line_chars m
  | m :: rest => material_line_chars m ++ str_chars ", " ++
      material_list_chars rest

/-- Rendering of a list of strings inside `str(task)` (the complexity
factors). -/
def str_list_chars : List String → List Char
  | [] => []
  | [f] => quoted (str_chars f)
  | f :: rest => quoted (str_chars f) ++ str_chars ", " ++ str_list_chars rest

/-- Rendering of the complexity-factors value (`None` when the key carries
no list, which only arises on the fallback task). -/
def complexity_field_chars : Option (List String) → List Char
  | some fs => str_chars "[" ++ str_list_chars fs ++ str_chars "]"
  | none => str_chars "None"

/-- Rendering of the trailing `error` entry, present only on the fallback
task's dictionary. -/
def error_field_chars : Option String → List Char
  | none => []
  | some e => str_chars ", 'error': " ++ quoted (str_chars e)

/-- Rendering of `str(task)` for a detailed-task dictionary, in the
dictionary's insertion order (pricing_engine.py lines 165-175). -/
def detailed_task_chars (t : DetailedTask) : List Char :=
  str_chars "\x7b'task_type': " ++ quoted (str_chars t.task_type) ++
  str_chars ", 'description': " ++ quoted (str_chars t.description) ++
  str_chars ", 'area_sqm': " ++ rat_chars t.area_sqm ++
  str_chars ", 'labor_hours': " ++ rat_chars t.labor_hours ++
  str_chars ", 'labor_cost': " ++ rat_chars t.labor_cost ++
  str_chars ", 'materials': [" ++ material_list_chars t.materials ++
  str_chars "], 'materials_cost': " ++ rat_chars t.materials_cost ++
  str_chars ", 'skill_required': " ++ quoted (str_chars t.skill_required) ++
  str_chars ", 'complexity_factors': " ++
    complexity_field_chars t.complexity_factors ++
  error_field_chars t.error ++
  str_chars "\x7d"

/-- The per-task energy test `"energy" in str(task).lower()` of
pricing_engine.py line 194. -/
def task_contains_energy (t : DetailedTask) : Bool :=
  occursB energy_chars (lower_chars (detailed_task_chars t))

/-- One task of the parsed transcript data consumed by the engine (a
dictionary whose keys are all read with `.get`, hence optional). -/
structure ParsedTask where
  type : Option String
  description : Option String
  complexity_factors : Option (List String)
deriving DecidableEq

/-- The parsed transcript dictionary consumed by the engine (keys read with
`.get` and a default, hence optional). -/
structure ParsedData where
  area_sqm : Option ℚ
  city : Option String
  tasks : List ParsedTask
  budget_conscious : Option Bool
  confidence_score : Option ℚ
  parsing_method : Option String
deriving DecidableEq

/-- One entry of `PricingEngine.task_definitions` (pricing_engine.py lines
46-94). -/
structure EngineTaskDef where
  skill_level : SkillLevel
  hours_per_sqm : ℚ
  materials : List (String × ℚ)
deriving DecidableEq

/-- The `PricingEngine.task_definitions` table. -/
def engine_task_definitions : List (String × EngineTaskDef) :=
  [("demolition",
    { skill_level := .basic, hours_per_sqm := 15 / 10,
      materials := [("demolition_materials", 1)] }),
   ("tiling",
    { skill_level := .skilled, hours_per_sqm := 28 / 10,
      materials :=
        [("ceramic_floor_basic", 11 / 10), ("tile_adhesive", 15 / 10),
         ("waterproof_membrane", 1)] }),
   ("plumbing",
    { skill_level := .specialist, hours_per_sqm := 25 / 10,
      materials :=
        [("shower_mixer_basic", 25 / 100), ("toilet_standard", 25 / 100),
         ("pipes_pvc", 3)] }),
   ("installation",
    { skill_level := .skilled, hours_per_sqm := 18 / 10,
      materials := [("vanity_unit_60cm", 25 / 100)] }),
   ("painting",
    { skill_level := .basic, hours_per_sqm := 1,
      materials := [("bathroom_paint_basic", 20 / 100), ("primer", 15 / 100)] }),
   ("electrical",
    { skill_level := .specialist, hours_per_sqm := 2,
      materials := [("electrical_supplies", 5 / 10)] })]

/-- The materials loop of `_generate_detailed_tasks` (pricing_engine.py
lines 135-154): builds the costed material lines of one task and the
running `total_materials_cost`, skipping materials whose costing errors. -/
def build_task_materials (db : MaterialDatabase) (area : ℚ) (city : String) :
    List (String × ℚ) → List MaterialLine × ℚ
  | [] => ([], 0)
  | (material_id, qty_per_sqm) :: rest =>
    let quantity := area * qty_per_sqm
    let next := build_task_materials db area city rest
    match get_cost_with_margin db material_id quantity city with
    | .error _ => next
    | .ok cost_info =>
      ({ name := cost_info.name, quantity := some cost_info.quantity,
         unit := some cost_info.unit, unit_cost := some cost_info.unit_cost,
         total_cost := cost_info.total_cost } :: next.1,
       cost_info.total_cost + next.2)

/-- The body of the task loop of `_generate_detailed_tasks`
(pricing_engine.py lines 126-175): `none` when the task is skipped (missing
or unrecognized type, or a labor error). -/
def process_task (db : MaterialDatabase) (area : ℚ) (city : String)
    (task : ParsedTask) : Option DetailedTask :=
  match task.type with
  | none => none
  | some task_type =>
    match engine_task_definitions.lookup task_type with
    | none => none
    | some task_def =>
      let built := build_task_materials db area city task_def.materials
      match calculate_task_labor (py_remove_underscores task_type) area city
          (some (task.complexity_factors.getD [])) none false with
      | .error _ => none
      | .ok labor_result =>
        some
          { task_type := task_type
            description :=
              task.description.getD (task_type.capitalize ++ " work")
            area_sqm := area
            labor_hours := labor_result.billable_hours
            labor_cost := labor_result.base_labor_cost
            materials := built.1
            materials_cost := round2 built.2
            skill_required := labor_result.skill_required
            complexity_factors := some (task.complexity_factors.getD [])
            error := none }

/-- Embedding of `PricingEngine._generate_detailed_tasks` (pricing_engine.py
lines 119-177); the engine's own `MaterialDatabase()` is the default one. -/
def generate_detailed_tasks (parsed_data : ParsedData) : List DetailedTask :=
  parsed_data.tasks.filterMap
    (process_task defaultMaterialDatabase (parsed_data.area_sqm.getD 4)
      (parsed_data.city.getD "marseille"))

/-- The `Quote` dataclass of pricing_engine.py. -/
structure Quote where
  project_id : String
  zone : String
  city : String
  total_area_sqm : ℚ
  tasks : List DetailedTask
  subtotal_materials : ℚ
  subtotal_labor : ℚ
  vat_amount : ℚ
  total_price : ℚ
  margin_percentage : ℚ
  confidence_score : ℚ
  parsing_method : String
  created_at : String
deriving DecidableEq

/-- The VAT call made by `_calculate_final_quote` (pricing_engine.py lines
182-201): subtotals, margin selection, the constant building age 5, the
energy check over `str(task)`, and the resolver invocation on the two
margin-inflated components. -/
def quote_vat (parsed_data : ParsedData) (tasks : List DetailedTask) :
    VATResult :=
  let subtotal_materials := (tasks.map DetailedTask.materials_cost).sum
  let subtotal_labor := (tasks.map DetailedTask.labor_cost).sum
  let budget_conscious := parsed_data.budget_conscious.getD false
  let margin_percentage : ℚ := if budget_conscious then 15 / 100 else 25 / 100
  let building_age : ℤ := 5
  let is_energy := tasks.any task_contains_energy
  calculate_simple_renovation_vat
    (subtotal_materials * (1 + margin_percentage))
    (subtotal_labor * (1 + margin_percentage)) building_age is_energy

/-- Embedding of `PricingEngine._calculate_final_quote` (pricing_engine.py
lines 179-217).  The source's `subtotal_with_margin` local (line 190) is
computed but never used and is omitted; `now` stands for the wall-clock
strings in `project_id` and `created_at`. -/
def calculate_final_quote (now : String) (parsed_data : ParsedData)
    (tasks : List DetailedTask) : Quote :=
  let subtotal_materials := (tasks.map DetailedTask.materials_cost).sum
  let subtotal_labor := (tasks.map DetailedTask.labor_cost).sum
  let budget_conscious := parsed_data.budget_conscious.getD false
  let margin_percentage : ℚ := if budget_conscious then 15 / 100 else 25 / 100
  let vat_calculation := quote_vat parsed_data tasks
  { project_id := "BTH_" ++ now
    zone := "bathroom"
    city := parsed_data.city.getD "marseille"
    total_area_sqm := parsed_data.area_sqm.getD 4
    tasks := tasks
    subtotal_materials := round2 subtotal_materials
    subtotal_labor := round2 subtotal_labor
    vat_amount := vat_calculation.vat_amount
    total_price := vat_calculation.total_including_vat
    margin_percentage := margin_percentage
    confidence_score := parsed_data.confidence_score.getD (1 / 2)
    parsing_method := parsed_data.parsing_method.getD "unknown"
    created_at := now }

/-- Embedding of `PricingEngine._generate_fallback_quote` (pricing_engine.py
lines 219-246). -/
def generate_fallback_quote (now error : String) : Quote :=
  { project_id := "BTH_FALLBACK_" ++ now
    zone := "bathroom"
    city := "marseille"
    total_area_sqm := 4
    tasks :=
      [{ task_type := "general_renovation"
         description := "General bathroom renovation (fallback estimate)"
         area_sqm := 4
         labor_hours := 20
         labor_cost := 800
         materials :=
           [{ name := "Mixed materials", quantity := none, unit := none,
              unit_cost := none, total_cost := 1200 }]
         materials_cost := 1200
         skill_required := "skilled"
         complexity_factors := none
         error := some error }]
    subtotal_materials := 1200
    subtotal_labor := 800
    vat_amount := 200
    total_price := 2200
    margin_percentage := 20 / 100
    confidence_score := 1 / 10
    parsing_method := "fallback"
    created_at := now }

/-- Embedding of `PricingEngine.generate_quote` (pricing_engine.py lines
96-117).  The transcript parser is an external collaborator (network call);
its outcome is the `Except` argument: a raised exception (caught by the
engine's top-level `try`) or the parsed dictionary.  The remaining pipeline
steps are total functions of the model, and `_save_quote` catches its own
exceptions and only performs I/O, so the model's only failure source is the
parse step. -/
def generate_quote (now : String) (parse_result : Except String ParsedData) :
    Quote :=
  match parse_result with
  | .error e => generate_fallback_quote now e
  | .ok parsed_data =>
    calculate_final_quote now parsed_data (generate_detailed_tasks parsed_data)

/-- Modelled from the spec: the per-task materials total as the spec's
rounding discipline describes it, namely two-decimal rounding applied once
to the sum of the *unrounded* per-material costs ("internal accumulation
uses unrounded values").  Compare with the engine's actual accumulation in
`build_task_materials`, which sums the already-rounded `total_cost`
outputs of `get_cost_with_margin`. -/
def spec_task_materials_total (db : MaterialDatabase) (area : ℚ)
    (city : String) (pairs : List (String × ℚ)) : ℚ :=
  round2 ((pairs.map
    (fun p => raw_cost_with_margin db p.1 (area * p.2) city)).sum)

/-- Shorthand for the lowered character list of a string literal. -/
def low_s (s : String) : List Char := lower_chars (str_chars s)

/-- A segment of the (lowered) rendering of `str(task)`: either fixed or
numeric text (`lit`), or a quote-delimited free string value (`str`). -/
inductive RChunk where
  | lit (s : List Char)
  | str (s : List Char)
deriving DecidableEq

/-- Rendering of a segment list; `str` segments are wrapped in the quote
characters Python's `repr` puts around string values. -/
def render_chunks : List RChunk → List Char
  | [] => []
  | .lit s :: rest => s ++ render_chunks rest
  | .str s :: rest => '\'' :: (s ++ '\'' :: render_chunks rest)

/-- Boolean test that a list's final character (when any) is not a pattern
character. -/
def lastFree (pat s : List Char) : Bool :=
  match s.getLast? with
  | some c => !(List.elem c pat)
  | none => true

/-- Side condition on a `lit` segment under which a pattern occurrence
cannot lie inside it or straddle its right boundary: the pattern does not
occur in it and its final character is not a pattern character. -/
@[reducible] def lit_ok (pat : List Char) : RChunk → Prop
  | .lit s => occursB pat s = false ∧ lastFree pat s = true
  | .str _ => True

/-- The segment contributed by an optional string field. -/
def opt_str_chunk : Option String → RChunk
  | some u => .str (low_s u)
  | none => .lit (low_s "None")

/-- Segment list of one material line's rendering. -/
def line_chunks (m : MaterialLine) : List RChunk :=
  [.lit (low_s "\x7b'name': "),
   .str (low_s m.name),
   .lit (low_s ", 'quantity': "),
   .lit (lower_chars (opt_rat_chars m.quantity)),
   .lit (low_s ", 'unit': "),
   opt_str_chunk m.unit,
   .lit (low_s ", 'unit_cost': "),
   .lit (lower_chars (opt_rat_chars m.unit_cost)),
   .lit (low_s ", 'total_cost': "),
   .lit (lower_chars (rat_chars m.total_cost)),
   .lit (low_s "\x7d")]

/-- Segment list of the materials list's rendering. -/
def lines_chunks : List MaterialLine → List RChunk
  | [] => []
  | [m] => line_chunks m
  | m :: rest => line_chunks m ++ (.lit (low_s ", ") :: lines_chunks rest)

/-- Segment list of the complexity-factor list's rendering. -/
def factors_chunks : List String → List RChunk
  | [] => []
  | [f] => [.str (low_s f)]
  | f :: rest => .str (low_s f) :: .lit (low_s ", ") :: factors_chunks rest

/-- Segment list of the complexity-factors entry. -/
def complexity_chunks : Option (List String) → List RChunk
  | some fs => .lit (low_s ", 'complexity_factors': [") ::
      (factors_chunks fs ++ [.lit (low_s "]")])
  | none => [.lit (low_s ", 'complexity_factors': None")]

/-- Segment list of the optional trailing error entry. -/
def error_chunks : Option String → List RChunk
  | none => []
  | some e => [.lit (low_s ", 'error': "), .str (low_s e)]

/-- Segment list of the whole (lowered) `str(task)` rendering. -/
def task_chunks (t : DetailedTask) : List RChunk :=
  [.lit (low_s "\x7b'task_type': "),
   .str (low_s t.task_type),
   .lit (low_s ", 'description': "),
   .str (low_s t.description),
   .lit (low_s ", 'area_sqm': "),
   .lit (lower_chars (rat_chars t.area_sqm)),
   .lit (low_s ", 'labor_hours': "),
   .lit (lower_chars (rat_chars t.labor_hours)),
   .lit (low_s ", 'labor_cost': "),
   .lit (lower_chars (rat_chars t.labor_cost)),
   .lit (low_s ", 'materials': [")]
  ++ lines_chunks t.materials
  ++ [.lit (low_s "], 'materials_cost': "),
      .lit (lower_chars (rat_chars t.materials_cost)),
      .lit (low_s ", 'skill_required': "),
      .str (low_s t.skill_required)]
  ++ complexity_chunks t.complexity_factors
  ++ error_chunks t.error
  ++ [.lit (low_s "\x7d")]

/-- A concrete parsed work order: area 4, Marseille, a single demolition
task with no complexity factors, not budget-conscious (the scenario of
claim C3). -/
def demo_marseille_parsed_data : ParsedData :=
  { area_sqm := some 4, city := some "marseille",
    tasks := [{ type := some "demolition",
                description := some "Remove old tiles and debris",
                complexity_factors := some [] }],
    budget_conscious := some false, confidence_score := some (3 / 4),
    parsing_method := some "openai" }

/-- A concrete parsed work order with a tiling task over a 0.01 square-meter
area, chosen so that the per-material roundings visibly disagree with a
single rounding of the unrounded sum (claim C5). -/
def tiling_small_parsed_data : ParsedData :=
  { area_sqm := some (1 / 100), city := some "marseille",
    tasks := [{ type := some "tiling",
                description := some "Tile the floor",
                complexity_factors := some [] }],
    budget_conscious := some true, confidence_score := some (3 / 4),
    parsing_method := some "openai" }

/-- A material with its informational availability score erased (set to 0);
two catalogs "differ only in availability scores" when their entries agree
up to this erasure. -/
def strip_availability (m : Material) : Material :=
  { m with availability_score := 0 }

/-- The four monetary outputs of `get_cost_with_margin` named by claim C9. -/
def cost_fields (c : CostInfo) : ℚ × ℚ × ℚ × ℚ :=
  (c.unit_cost, c.base_cost, c.margin, c.total_cost)

/-- A one-entry catalog used to witness C9. -/
def availability_demo_material : Material :=
  { name := "Demo", category := "consumables", unit := "kg", base_cost := 10,
    supplier_margin := 1 / 10, quality_grade := "basic",
    availability_score := 95 / 100, supplier_id := none }

/-- The same material with a different availability score. -/
def availability_demo_material_alt : Material :=
  { availability_demo_material with availability_score := 1 / 10 }

/-- A one-entry material database used to witness C9. -/
def availability_demo_db : MaterialDatabase :=
  { materials := [("demo", availability_demo_material)],
    regional_multipliers := [] }

/-- The same database with only the availability score changed. -/
def availability_demo_db_alt : MaterialDatabase :=
  { materials := [("demo", availability_demo_material_alt)],
    regional_multipliers := [] }

/-- Decidable equality for `Except` results (used to evaluate the model on
concrete inputs). -/
instance exceptDecidableEq {e a : Type} [DecidableEq e] [DecidableEq a] :
    DecidableEq (Except e a) := fun x y =>
  match x, y with
  | .error u, .error v =>
    if h : u = v then .isTrue (congrArg Except.error h)
    else .isFalse (fun hh => h (Except.error.inj hh))
  | .ok u, .ok v =>
    if h : u = v then .isTrue (congrArg Except.ok h)
    else .isFalse (fun hh => h (Except.ok.inj hh))
  | .error _, .ok _ => .isFalse (fun hh => Except.noConfusion hh)
  | .ok _, .error _ => .isFalse (fun hh => Except.noConfusion hh)

/-! ### Generic lemmas about the association-list tables and rounding -/

/-- Keys that a successful `List.lookup` hits satisfy any property enjoyed by
every key of the table. -/
theorem lookup_fst_prop {α β : Type} [BEq α] [LawfulBEq α] (P : α → Prop)
    (l : List (α × β)) (hP : ∀ k ∈ l.map Prod.fst, P k) {a : α} {b : β}
    (h : l.lookup a = some b) : P a := by
  induction l with
  | nil => simp [List.lookup] at h
  | cons p t ih =>
    obtain ⟨k, v⟩ := p
    rw [List.lookup_cons] at h
    split at h
    · next hk => exact (eq_of_beq hk) ▸ hP k (by simp)
    · exact ih (fun k hk => hP k (by simp [hk])) h

/-- Values that a successful `List.lookup` returns satisfy any property
enjoyed by every value of the table. -/
theorem lookup_snd_prop {α β : Type} [BEq α] [LawfulBEq α] (P : β → Prop)
    (l : List (α × β)) (hP : ∀ v ∈ l.map Prod.snd, P v) {a : α} {b : β}
    (h : l.lookup a = some b) : P b := by
  induction l with
  | nil => simp [List.lookup] at h
  | cons p t ih =>
    obtain ⟨k, v⟩ := p
    rw [List.lookup_cons] at h
    split at h
    · cases h; exact hP b (by simp)
    · exact ih (fun v hv => hP v (by simp [hv])) h

/-- One-decimal rounding is monotone. -/
theorem round1_le_round1 {x y : ℚ} (h : x ≤ y) : round1 x ≤ round1 y := by
  unfold round1
  have hr : round (x * 10) ≤ round (y * 10) := by
    rw [round_eq, round_eq]
    exact Int.floor_le_floor (by linarith)
  have hr' : ((round (x * 10) : ℤ) : ℚ) ≤ ((round (y * 10) : ℤ) : ℚ) := by
    exact_mod_cast hr
  linarith

/-- Two-decimal rounding moves a rational by at most half a cent. -/
theorem round2_sub_abs (x : ℚ) : |round2 x - x| ≤ 1 / 200 := by
  have h := abs_sub_round (x * 100)
  unfold round2
  have hrw : ((round (x * 100) : ℤ) : ℚ) / 100 - x =
      (((round (x * 100) : ℤ) : ℚ) - x * 100) / 100 := by ring
  rw [hrw, abs_div, abs_sub_comm, show |(100 : ℚ)| = 100 by norm_num]
  linarith

/-! ### Claim C2 -/

/-- C2: the simple VAT resolution selects the rate by a first-match ladder
(5.5 percent when energy and age at least 2, else 10 percent when age at
least 2, else 20 percent); the VAT amount is `(m + l) * rate` and the
VAT-inclusive total is subtotal plus VAT, each rounded to 2 decimals; and
for `e = false` the rate is 20 percent below age 2 and 10 percent from age
2 on. -/
theorem c2_simple_vat_ladder (m l : ℚ) (a : ℤ) (e : Bool) :
    (calculate_simple_renovation_vat m l a e).vat_rate =
      (if e = true ∧ 2 ≤ a then 55 / 1000 else if 2 ≤ a then 10 / 100 else 20 / 100)
    ∧ (calculate_simple_renovation_vat m l a e).vat_amount =
        round2 ((m + l) * (calculate_simple_renovation_vat m l a e).vat_rate)
    ∧ (calculate_simple_renovation_vat m l a e).total_including_vat =
        round2 ((m + l) + (m + l) * (calculate_simple_renovation_vat m l a e).vat_rate)
    ∧ (calculate_simple_renovation_vat m l a false).vat_rate =
        (if 2 ≤ a then 10 / 100 else 20 / 100) := by
  simp only [calculate_simple_renovation_vat, vat_rate_standard,
    vat_rate_renovation, vat_rate_energy_efficiency]
  split_ifs <;> simp_all

/-! ### Claim C4 -/

/-- C4: feeding the margin-inflated materials and labor components separately
into the simple VAT resolution yields the same VAT amount and the same
VAT-inclusive total as feeding the single combined margin-inflated subtotal
(over exact arithmetic). -/
theorem c4_vat_separate_equals_combined (m l p : ℚ) (a : ℤ) (e : Bool) :
    (calculate_simple_renovation_vat (m * (1 + p)) (l * (1 + p)) a e).vat_amount =
      (calculate_simple_renovation_vat ((m + l) * (1 + p)) 0 a e).vat_amount
    ∧ (calculate_simple_renovation_vat (m * (1 + p)) (l * (1 + p)) a e).total_including_vat =
      (calculate_simple_renovation_vat ((m + l) * (1 + p)) 0 a e).total_including_vat := by
  have h : m * (1 + p) + l * (1 + p) = (m + l) * (1 + p) + 0 := by ring
  constructor <;> simp only [calculate_simple_renovation_vat, h]

/-! ### Claim C6 -/

unseal Rat.mul Rat.inv Rat.add Rat.sub in
/-- C6: for every task type known to the labor rule table and every area at
least 0, the billable hours equal `max(area * hoursPerUnitArea, minimumHours)`
(the labor result reports this value rounded to one decimal, as the source
does) and are at least the configured minimum hours of the task type. -/
theorem c6_billable_hours_floor (task_type : String) (d : LaborTaskDef)
    (hd : labor_task_definitions.lookup task_type = some d) (area : ℚ)
    (_h0 : 0 ≤ area) (region : String) (cfs : Option (List String))
    (tm : Option ℕ) (rush : Bool) :
    d.minimum_hours ≤ max (area * d.hours_per_sqm) d.minimum_hours
    ∧ ∃ r, calculate_task_labor task_type area region cfs tm rush = .ok r
        ∧ r.billable_hours = round1 (max (area * d.hours_per_sqm) d.minimum_hours)
        ∧ d.minimum_hours ≤ r.billable_hours := by
  have hmin : round1 d.minimum_hours = d.minimum_hours := by
    have hall : ∀ v ∈ labor_task_definitions.map Prod.snd,
        round1 v.minimum_hours = v.minimum_hours := by decide
    exact lookup_snd_prop _ _ hall hd
  refine ⟨le_max_right _ _, ?_⟩
  unfold calculate_task_labor
  rw [hd]
  refine ⟨_, rfl, rfl, ?_⟩
  show d.minimum_hours ≤ round1 (max (area * d.hours_per_sqm) d.minimum_hours)
  calc d.minimum_hours = round1 d.minimum_hours := hmin.symm
    _ ≤ round1 (max (area * d.hours_per_sqm) d.minimum_hours) :=
        round1_le_round1 (le_max_right _ _)

unseal Rat.mul Rat.inv Rat.add Rat.sub in
/-- Witness for C6 at the demolition task with area 4. -/
theorem c6_billable_hours_floor_witness :
    (3 : ℚ) ≤ max ((4 : ℚ) * (15 / 10)) 3
    ∧ ∃ r, calculate_task_labor "demolition" 4 "marseille" none none false = .ok r
        ∧ r.billable_hours = round1 (max ((4 : ℚ) * (15 / 10)) 3)
        ∧ (3 : ℚ) ≤ r.billable_hours :=
  c6_billable_hours_floor "demolition"
    { skill_level := .basic, hours_per_sqm := 15 / 10, minimum_hours := 3,
      complexity_factors :=
        [("thick_walls", 13 / 10), ("tight_access", 12 / 10),
         ("electrical_obstacles", 12 / 10)] }
    rfl 4 (by norm_num) "marseille" none none false

/-! ### Claim C7 -/

unseal Rat.mul Rat.inv Rat.add Rat.sub in
/-- C7: a city absent from the regional multiplier tables resolves to
multiplier exactly 1.0, never an error, and labor pricing and material
costing with such a city equal the baseline-city ("marseille") results. -/
theorem c7_unknown_city_defaults (city : String)
    (hl : labor_regional_multipliers.lookup (py_lower city) = none)
    (hm : material_regional_multipliers.lookup (py_lower city) = none) :
    ((labor_regional_multipliers.lookup (py_lower city)).getD 1 = 1)
    ∧ ((material_regional_multipliers.lookup (py_lower city)).getD 1 = 1)
    ∧ (∀ task_type area cfs tm rush,
        calculate_task_labor task_type area city cfs tm rush =
          calculate_task_labor task_type area "marseille" cfs tm rush)
    ∧ (∀ material_id,
        get_material defaultMaterialDatabase material_id city =
          get_material defaultMaterialDatabase material_id "marseille")
    ∧ (∀ material_id quantity,
        get_cost_with_margin defaultMaterialDatabase material_id quantity city =
          get_cost_with_margin defaultMaterialDatabase material_id quantity
            "marseille") := by
  have hlb : labor_regional_multipliers.lookup ((py_lower "marseille")) = some 1 := by
    decide
  have hmb : material_regional_multipliers.lookup ((py_lower "marseille")) = some 1 := by
    decide
  have hmat : ∀ material_id,
      get_material defaultMaterialDatabase material_id city =
        get_material defaultMaterialDatabase material_id "marseille" := by
    intro material_id
    unfold get_material
    cases hx : defaultMaterialDatabase.materials.lookup material_id with
    | none => rfl
    | some m => simp [defaultMaterialDatabase, hm, hmb]
  refine ⟨by rw [hl]; rfl, by rw [hm]; rfl, ?_, hmat, ?_⟩
  · intro task_type area cfs tm rush
    unfold calculate_task_labor
    cases htd : labor_task_definitions.lookup task_type with
    | none => rfl
    | some d => simp [hl, hlb]
  · intro material_id quantity
    unfold get_cost_with_margin
    rw [hmat material_id]

unseal Rat.mul Rat.inv Rat.add Rat.sub in
/-- Witness for C7 at the unknown city "berlin". -/
theorem c7_unknown_city_defaults_witness :
    labor_regional_multipliers.lookup ((py_lower "berlin")) = none
    ∧ material_regional_multipliers.lookup ((py_lower "berlin")) = none
    ∧ calculate_task_labor "demolition" 4 "berlin" none none false =
        calculate_task_labor "demolition" 4 "marseille" none none false
    ∧ get_cost_with_margin defaultMaterialDatabase "demolition_materials" 2
        "berlin" =
      get_cost_with_margin defaultMaterialDatabase "demolition_materials" 2
        "marseille" :=
  ⟨by decide, by decide,
   (c7_unknown_city_defaults "berlin" (by decide) (by decide)).2.2.1
     "demolition" 4 none none false,
   (c7_unknown_city_defaults "berlin" (by decide) (by decide)).2.2.2.2
     "demolition_materials" 2⟩

/-! ### Claim C8 -/

/-- The shape of a successful `get_cost_with_margin` result in terms of the
regionally priced material. -/
theorem get_cost_with_margin_ok (db : MaterialDatabase)
    (material_id city : String) (quantity : ℚ) (mat : Material)
    (hg : get_material db material_id city = some mat) :
    ∃ ci, get_cost_with_margin db material_id quantity city = .ok ci
      ∧ ci.total_cost =
          round2 (mat.base_cost * quantity +
            mat.base_cost * quantity * mat.supplier_margin)
      ∧ ci.base_cost = round2 (mat.base_cost * quantity)
      ∧ ci.margin = round2 (mat.base_cost * quantity * mat.supplier_margin) := by
  unfold get_cost_with_margin
  rw [hg]
  exact ⟨_, rfl, rfl, rfl, rfl⟩

/-- C8: for a material present in the catalog and any quantity q at least 0,
the unrounded total cost is exactly linear in the quantity, and the rounded
total cost for quantity q differs from q times the rounded unit-quantity
total cost by at most `(1 + q) / 200` (the rounding tolerance). -/
theorem c8_cost_linearity (db : MaterialDatabase) (material_id city : String)
    (mat : Material) (hm : db.materials.lookup material_id = some mat)
    (q : ℚ) (hq : 0 ≤ q) :
    ∃ c1 cq, get_cost_with_margin db material_id 1 city = .ok c1
      ∧ get_cost_with_margin db material_id q city = .ok cq
      ∧ raw_cost_with_margin db material_id q city =
          raw_cost_with_margin db material_id 1 city * q
      ∧ |cq.total_cost - c1.total_cost * q| ≤ (1 + q) / 200 := by
  have hg : get_material db material_id city =
      some { mat with base_cost :=
              mat.base_cost *
                ((db.regional_multipliers.lookup (py_lower city)).getD 1) } := by
    unfold get_material
    rw [hm]
  set m' : Material :=
    { mat with base_cost :=
        mat.base_cost * ((db.regional_multipliers.lookup (py_lower city)).getD 1) }
    with hm'
  obtain ⟨c1, e1, t1, _, _⟩ := get_cost_with_margin_ok db material_id city 1 m' hg
  obtain ⟨cq, eq1, tq, _, _⟩ := get_cost_with_margin_ok db material_id city q m' hg
  refine ⟨c1, cq, e1, eq1, ?_, ?_⟩
  · unfold raw_cost_with_margin
    rw [hg]
    ring
  · rw [t1, tq]
    set c := m'.base_cost * 1 + m'.base_cost * 1 * m'.supplier_margin with hc
    have hcq : m'.base_cost * q + m'.base_cost * q * m'.supplier_margin =
        c * q := by rw [hc]; ring
    rw [hcq]
    have h1 := round2_sub_abs (c * q)
    have h2 := round2_sub_abs c
    have h3 : |c * q - round2 c * q| = |c - round2 c| * q := by
      rw [show c * q - round2 c * q = (c - round2 c) * q by ring, abs_mul,
        abs_of_nonneg hq]
    have h4 : |c - round2 c| ≤ 1 / 200 := by rw [abs_sub_comm]; exact h2
    calc |round2 (c * q) - round2 c * q|
        ≤ |round2 (c * q) - c * q| + |c * q - round2 c * q| :=
          abs_sub_le _ (c * q) _
      _ ≤ 1 / 200 + |c - round2 c| * q := by rw [h3]; linarith
      _ ≤ 1 / 200 + (1 / 200) * q := by nlinarith
      _ = (1 + q) / 200 := by ring

unseal Rat.mul Rat.inv Rat.add Rat.sub in
/-- Witness for C8 at demolition materials with quantity 3 in Marseille. -/
theorem c8_cost_linearity_witness :
    defaultMaterialDatabase.materials.lookup "demolition_materials" =
      some { name := "Demolition Supplies", category := "consumables",
             unit := "m²", base_cost := 5, supplier_margin := 10 / 100,
             quality_grade := "basic", availability_score := 95 / 100,
             supplier_id := none }
    ∧ (0 : ℚ) ≤ 3
    ∧ ∃ c1 cq,
        get_cost_with_margin defaultMaterialDatabase "demolition_materials" 1
          "marseille" = .ok c1
        ∧ get_cost_with_margin defaultMaterialDatabase "demolition_materials" 3
            "marseille" = .ok cq
        ∧ raw_cost_with_margin defaultMaterialDatabase "demolition_materials" 3
            "marseille" =
          raw_cost_with_margin defaultMaterialDatabase "demolition_materials" 1
            "marseille" * 3
        ∧ |cq.total_cost - c1.total_cost * 3| ≤ (1 + 3) / 200 :=
  ⟨by decide, by norm_num,
   c8_cost_linearity defaultMaterialDatabase "demolition_materials" "marseille"
     { name := "Demolition Supplies", category := "consumables",
       unit := "m²", base_cost := 5, supplier_margin := 10 / 100,
       quality_grade := "basic", availability_score := 95 / 100,
       supplier_id := none }
     (by decide) 3 (by norm_num)⟩

/-! ### Claim C9 -/

/-- C9: two catalog states that differ only in the availability scores of
their materials produce identical unit cost, base cost, margin and total
cost for every material id, quantity and city (and fail on exactly the same
lookups). -/
theorem c9_availability_noninterference (db1 db2 : MaterialDatabase)
    (hmat : ∀ k, (db1.materials.lookup k).map strip_availability =
                 (db2.materials.lookup k).map strip_availability)
    (hreg : db1.regional_multipliers = db2.regional_multipliers) :
    ∀ material_id quantity city,
      (get_cost_with_margin db1 material_id quantity city).map cost_fields =
      (get_cost_with_margin db2 material_id quantity city).map cost_fields := by
  intro material_id quantity city
  have h := hmat material_id
  cases h1 : db1.materials.lookup material_id with
  | none =>
    cases h2 : db2.materials.lookup material_id with
    | none => simp [get_cost_with_margin, get_material, h1, h2]
    | some m2 => rw [h1, h2] at h; simp at h
  | some m1 =>
    cases h2 : db2.materials.lookup material_id with
    | none => rw [h1, h2] at h; simp at h
    | some m2 =>
      rw [h1, h2] at h
      simp only [Option.map_some'] at h
      have h' : strip_availability m1 = strip_availability m2 :=
        Option.some.inj h
      have hb : m1.base_cost = m2.base_cost := by
        simpa [strip_availability] using congrArg Material.base_cost h'
      have hs : m1.supplier_margin = m2.supplier_margin := by
        simpa [strip_availability] using congrArg Material.supplier_margin h'
      simp [get_cost_with_margin, get_material, h1, h2, hreg, hb, hs,
        Except.map, cost_fields]

unseal Rat.mul Rat.inv Rat.add Rat.sub in
/-- Witness for C9 on two one-entry catalogs differing only in availability. -/
theorem c9_availability_noninterference_witness :
    (∀ k, (availability_demo_db.materials.lookup k).map strip_availability =
          (availability_demo_db_alt.materials.lookup k).map strip_availability)
    ∧ availability_demo_db.regional_multipliers =
        availability_demo_db_alt.regional_multipliers
    ∧ (get_cost_with_margin availability_demo_db "demo" 2 "paris").map
        cost_fields =
      (get_cost_with_margin availability_demo_db_alt "demo" 2 "paris").map
        cost_fields := by
  have hk : ∀ k,
      (availability_demo_db.materials.lookup k).map strip_availability =
        (availability_demo_db_alt.materials.lookup k).map strip_availability := by
    intro k
    show (List.lookup k [("demo", availability_demo_material)]).map
          strip_availability =
        (List.lookup k [("demo", availability_demo_material_alt)]).map
          strip_availability
    rw [List.lookup_cons, List.lookup_cons]
    split
    · decide
    · rfl
  exact ⟨hk, rfl,
    c9_availability_noninterference availability_demo_db
      availability_demo_db_alt hk rfl "demo" 2 "paris"⟩

/-! ### Claim C1 -/

/-- C1: `generate_quote` never fails outward: a parse failure (the model's
only failure source; the later pipeline stages are total) is converted into
the deterministic fallback Quote with zone "bathroom", city "marseille",
area 4.0, a single placeholder line item carrying the error message, margin
0.20, confidence 0.1, method "fallback" and total price 2200.0, while a
successful parse always yields the assembled quote. -/
theorem c1_generate_quote_never_fails (now e : String) :
    generate_quote now (Except.error e) =
      { project_id := "BTH_FALLBACK_" ++ now
        zone := "bathroom"
        city := "marseille"
        total_area_sqm := 4
        tasks :=
          [{ task_type := "general_renovation"
             description := "General bathroom renovation (fallback estimate)"
             area_sqm := 4
             labor_hours := 20
             labor_cost := 800
             materials :=
               [{ name := "Mixed materials", quantity := none, unit := none,
                  unit_cost := none, total_cost := 1200 }]
             materials_cost := 1200
             skill_required := "skilled"
             complexity_factors := none
             error := some e }]
        subtotal_materials := 1200
        subtotal_labor := 800
        vat_amount := 200
        total_price := 2200
        margin_percentage := 20 / 100
        confidence_score := 1 / 10
        parsing_method := "fallback"
        created_at := now }
    ∧ ∀ parsed_data, generate_quote now (Except.ok parsed_data) =
        calculate_final_quote now parsed_data
          (generate_detailed_tasks parsed_data) :=
  ⟨rfl, fun _ => rfl⟩

/-! ### Claim C3 -/

set_option maxRecDepth 100000 in
unseal Rat.mul Rat.inv Rat.add Rat.sub in
/-- C3: the Marseille demolition scenario.  Labor: billable hours
`max(4.0 * 1.5, 3.0) = 6.0` at rate `30.0 * 1.0 = 30.0` giving 180.0; the
single material line has quantity `4.0 * 1.0 = 4.0` at unit cost 5.0 with a
10 percent supplier margin giving 22.0; and the quote's VAT is resolved at
the 10 percent rate (building age 5, not an energy renovation) on the
margin-inflated materials and labor components. -/
theorem c3_marseille_demolition_scenario :
    (calculate_task_labor "demolition" 4 "marseille" (some []) none
        false).map
      (fun r => (r.billable_hours, r.base_hourly_rate, r.regional_multiplier,
        r.final_hourly_rate, r.base_labor_cost, r.skill_required)) =
      .ok (6, 30, 1, 30, 180, "basic")
    ∧ (get_cost_with_margin defaultMaterialDatabase "demolition_materials"
        (4 * 1) "marseille").map
      (fun ci => (ci.name, ci.quantity, ci.unit_cost, ci.total_cost)) =
      .ok ("Demolition Supplies", 4, 5, 22)
    ∧ (generate_detailed_tasks demo_marseille_parsed_data).map
        (fun t => (t.labor_hours, t.labor_cost, t.materials_cost)) =
      [(6, 180, 22)]
    ∧ (quote_vat demo_marseille_parsed_data
        (generate_detailed_tasks demo_marseille_parsed_data)).vat_rate =
      10 / 100
    ∧ (quote_vat demo_marseille_parsed_data
        (generate_detailed_tasks demo_marseille_parsed_data)).materials_cost =
      22 * (1 + 25 / 100)
    ∧ (quote_vat demo_marseille_parsed_data
        (generate_detailed_tasks demo_marseille_parsed_data)).labor_cost =
      180 * (1 + 25 / 100)
    ∧ (quote_vat demo_marseille_parsed_data
        (generate_detailed_tasks demo_marseille_parsed_data)).building_age_years
      = 5
    ∧ (quote_vat demo_marseille_parsed_data
        (generate_detailed_tasks demo_marseille_parsed_data)).is_energy_renovation
      = false := by
  decide

/-! ### Claim C5 -/

/-- The accumulated `total_materials_cost` of the engine's material loop is
the sum of the (already rounded) `total_cost` values of the material lines
it keeps. -/
theorem build_task_materials_snd (db : MaterialDatabase) (area : ℚ)
    (city : String) (pairs : List (String × ℚ)) :
    (build_task_materials db area city pairs).2 =
      ((build_task_materials db area city pairs).1.map
        MaterialLine.total_cost).sum := by
  induction pairs with
  | nil => simp [build_task_materials]
  | cons p rest ih =>
    obtain ⟨material_id, qty⟩ := p
    unfold build_task_materials
    cases h : get_cost_with_margin db material_id (area * qty) city with
    | error _ => simpa [h] using ih
    | ok ci => simp [h, ih]

set_option maxRecDepth 100000 in
unseal Rat.mul Rat.inv Rat.add Rat.sub in
/-- C5 (counterexample): at area 0.01 with the tiling task, the engine's
per-task materials total (round2 of the sum of the already rounded
per-material totals) is 0.47, while the claimed discipline — a single
rounding of the unrounded accumulation (`spec_task_materials_total`, the
spec-described computation) — gives 0.46, so the claim that internal
accumulation uses unrounded values is false on the code. -/
theorem c5_unrounded_accumulation_counterexample :
    (generate_detailed_tasks tiling_small_parsed_data).map
        DetailedTask.materials_cost = [47 / 100]
    ∧ (engine_task_definitions.lookup "tiling").map
        (fun td => spec_task_materials_total defaultMaterialDatabase (1 / 100)
          "marseille" td.materials) = some (46 / 100)
    ∧ (47 : ℚ) / 100 ≠ 46 / 100 := by
  decide

/-- C5 (amended): the material-cost operation rounds its total at the
component boundary, the per-task accumulation sums those already-rounded
per-material totals (rounding the sum once more), and the quote-level
materials subtotal is the rounded sum of the already-rounded per-task
totals — so per-material rounding differences can propagate across line
items. -/
theorem c5_rounded_accumulation (pd : ParsedData) (t : DetailedTask)
    (ht : t ∈ generate_detailed_tasks pd) (db : MaterialDatabase)
    (material_id city : String) (q : ℚ) (ci : CostInfo)
    (hci : get_cost_with_margin db material_id q city = .ok ci) :
    t.materials_cost = round2 ((t.materials.map MaterialLine.total_cost).sum)
    ∧ ci.total_cost = round2 (raw_cost_with_margin db material_id q city)
    ∧ ∀ now tasks, (calculate_final_quote now pd tasks).subtotal_materials =
        round2 ((tasks.map DetailedTask.materials_cost).sum) := by
  refine ⟨?_, ?_, fun now tasks => rfl⟩
  · obtain ⟨task, _, hp⟩ := List.mem_filterMap.mp ht
    unfold process_task at hp
    split at hp
    · exact absurd hp (by simp)
    · split at hp
      · exact absurd hp (by simp)
      · split at hp
        · exact absurd hp (by simp)
        · cases hp
          exact congrArg round2 (build_task_materials_snd _ _ _ _)
  · cases hg : get_material db material_id city with
    | none =>
      unfold get_cost_with_margin at hci
      rw [hg] at hci
      exact absurd hci (by simp)
    | some mat =>
      unfold get_cost_with_margin at hci
      rw [hg] at hci
      unfold raw_cost_with_margin
      rw [hg]
      cases hci
      rfl

set_option maxRecDepth 100000 in
unseal Rat.mul Rat.inv Rat.add Rat.sub in
/-- Witness for C5 (amended) at the Marseille demolition scenario. -/
theorem c5_rounded_accumulation_witness :
    ({ task_type := "demolition"
       description := "Remove old tiles and debris"
       area_sqm := 4
       labor_hours := 6
       labor_cost := 180
       materials :=
         [{ name := "Demolition Supplies", quantity := some 4,
            unit := some "m²", unit_cost := some 5, total_cost := 22 }]
       materials_cost := 22
       skill_required := "basic"
       complexity_factors := some []
       error := none } : DetailedTask) ∈
        generate_detailed_tasks demo_marseille_parsed_data
    ∧ get_cost_with_margin defaultMaterialDatabase "demolition_materials" 4
        "marseille" = .ok
      { material_id := "demolition_materials", name := "Demolition Supplies",
        quantity := 4, unit := "m²", unit_cost := 5, base_cost := 20,
        margin := 2, total_cost := 22, availability_score := 95 / 100,
        quality_grade := "basic" }
    ∧ (22 : ℚ) = round2 (22 + 0)
    ∧ (22 : ℚ) = round2 (raw_cost_with_margin defaultMaterialDatabase
        "demolition_materials" 4 "marseille") := by
  have h := c5_rounded_accumulation demo_marseille_parsed_data
    { task_type := "demolition"
      description := "Remove old tiles and debris"
      area_sqm := 4
      labor_hours := 6
      labor_cost := 180
      materials :=
        [{ name := "Demolition Supplies", quantity := some 4,
           unit := some "m²", unit_cost := some 5, total_cost := 22 }]
      materials_cost := 22
      skill_required := "basic"
      complexity_factors := some []
      error := none }
    (by decide) defaultMaterialDatabase "demolition_materials" "marseille" 4
    { material_id := "demolition_materials", name := "Demolition Supplies",
      quantity := 4, unit := "m²", unit_cost := 5, base_cost := 20,
      margin := 2, total_cost := 22, availability_score := 95 / 100,
      quality_grade := "basic" }
    (by decide)
  exact ⟨by decide, by decide, h.1, h.2.1⟩

/-! ### Lemmas about the substring test -/

/-- `leadsB` tests exactly prefix-hood. -/
theorem leadsB_iff (pat : List Char) :
    ∀ s, leadsB pat s = true ↔ ∃ r, s = pat ++ r := by
  induction pat with
  | nil => intro s; simp [leadsB]
  | cons a as ih =>
    intro s
    cases s with
    | nil =>
      simp [leadsB]
    | cons b bs =>
      simp only [leadsB, Bool.and_eq_true, beq_iff_eq, ih bs,
        List.cons_append, List.cons.injEq]
      constructor
      · rintro ⟨rfl, r, rfl⟩
        exact ⟨r, rfl, rfl⟩
      · rintro ⟨r, rfl, rfl⟩
        exact ⟨rfl, r, rfl⟩

/-- `occursB` tests exactly contiguous occurrence. -/
theorem occursB_iff (pat : List Char) :
    ∀ s, occursB pat s = true ↔ ∃ l r, s = l ++ (pat ++ r) := by
  intro s
  induction s with
  | nil =>
    simp only [occursB, List.isEmpty_iff]
    constructor
    · rintro rfl
      exact ⟨[], [], rfl⟩
    · rintro ⟨l, r, h⟩
      rcases List.append_eq_nil.mp h.symm with ⟨rfl, h2⟩
      rcases List.append_eq_nil.mp h2 with ⟨rfl, rfl⟩
      rfl
  | cons c t ih =>
    simp only [occursB, Bool.or_eq_true]
    constructor
    · rintro (h | h)
      · obtain ⟨r, hr⟩ := (leadsB_iff pat _).mp h
        exact ⟨[], r, hr⟩
      · obtain ⟨l, r, hr⟩ := ih.mp h
        exact ⟨c :: l, r, by simp [hr]⟩
    · rintro ⟨l, r, hr⟩
      cases l with
      | nil =>
        exact Or.inl ((leadsB_iff pat _).mpr ⟨r, by simpa using hr⟩)
      | cons x l' =>
        right
        apply ih.mpr
        have h2 : c :: t = x :: (l' ++ (pat ++ r)) := by simpa using hr
        injection h2 with h3 h4
        exact ⟨l', r, h4⟩

/-- Occurrence as an explicit decomposition. -/
theorem occursIn_iff (pat s : List Char) :
    OccursIn pat s ↔ ∃ l r, s = l ++ (pat ++ r) := occursB_iff pat s

/-- Nothing but the empty pattern occurs in the empty list. -/
theorem occursIn_nil (pat : List Char) : OccursIn pat [] ↔ pat = [] := by
  rw [occursIn_iff]
  constructor
  · rintro ⟨l, r, h⟩
    rcases List.append_eq_nil.mp h.symm with ⟨rfl, h2⟩
    rcases List.append_eq_nil.mp h2 with ⟨rfl, rfl⟩
    rfl
  · rintro rfl
    exact ⟨[], [], rfl⟩

/-- An occurrence survives appending on the right. -/
theorem occursIn_append_right {pat m : List Char} (y : List Char)
    (h : OccursIn pat m) : OccursIn pat (m ++ y) := by
  rw [occursIn_iff] at h ⊢
  obtain ⟨l, r, rfl⟩ := h
  exact ⟨l, r ++ y, by simp⟩

/-- An occurrence survives appending on the left. -/
theorem occursIn_append_left {pat m : List Char} (x : List Char)
    (h : OccursIn pat m) : OccursIn pat (x ++ m) := by
  rw [occursIn_iff] at h ⊢
  obtain ⟨l, r, rfl⟩ := h
  exact ⟨x ++ l, r, by simp⟩

/-- Every pattern character appears somewhere in a list the pattern occurs
in. -/
theorem occursIn_mem {pat s : List Char} (h : OccursIn pat s) {a : Char}
    (ha : a ∈ pat) : a ∈ s := by
  rw [occursIn_iff] at h
  obtain ⟨l, r, rfl⟩ := h
  simp [ha]

/-- An occurrence in a list split by a character that is not in the pattern
lies entirely on one side of that character. -/
theorem occursIn_split {pat xs ys : List Char} {c : Char} (hne : pat ≠ [])
    (hc : c ∉ pat) (h : OccursIn pat (xs ++ c :: ys)) :
    OccursIn pat xs ∨ OccursIn pat ys := by
  rw [occursIn_iff] at h
  obtain ⟨l, r, he⟩ := h
  rcases List.append_eq_append_iff.mp he with ⟨k, hk1, hk2⟩ | ⟨k, hk1, hk2⟩
  · -- l = xs ++ k and c :: ys = k ++ (pat ++ r)
    cases k with
    | nil =>
      obtain ⟨p0, ps, rfl⟩ := List.exists_cons_of_ne_nil hne
      simp only [List.nil_append, List.cons_append, List.cons.injEq] at hk2
      exact absurd (hk2.1 ▸ List.mem_cons_self p0 ps) hc
    | cons k0 k' =>
      simp only [List.cons_append, List.cons.injEq] at hk2
      exact Or.inr ((occursIn_iff pat ys).mpr ⟨k', r, hk2.2⟩)
  · -- xs = l ++ k and pat ++ r = k ++ c :: ys
    rcases List.append_eq_append_iff.mp hk2 with ⟨m, hm1, hm2⟩ | ⟨m, hm1, hm2⟩
    · -- k = pat ++ m
      exact Or.inl ((occursIn_iff pat xs).mpr ⟨l, m, by simp [hk1, hm1]⟩)
    · -- pat = k ++ m and c :: ys = m ++ r
      cases m with
      | nil =>
        exact Or.inl ((occursIn_iff pat xs).mpr
          ⟨l, [], by simp [hk1, hm1]⟩)
      | cons m0 m' =>
        simp only [List.cons_append, List.cons.injEq] at hm2
        exact absurd (by simp [hm1, hm2.1.symm] : c ∈ pat) hc

/-- A block whose characters are all foreign to the pattern can be stripped
from the front of an occurrence test. -/
theorem occursIn_elim_front {pat F rest : List Char} (hne : pat ≠ [])
    (hF : ∀ a ∈ F, a ∉ pat) :
    OccursIn pat (F ++ rest) ↔ OccursIn pat rest := by
  constructor
  · intro h
    induction F with
    | nil => simpa using h
    | cons c F' ih =>
      have hsplit := occursIn_split hne (hF c (by simp))
        (show OccursIn pat ([] ++ c :: (F' ++ rest)) by simpa using h)
      rcases hsplit with h1 | h2
      · exact absurd ((occursIn_nil pat).mp h1) hne
      · exact ih (fun a ha => hF a (by simp [ha])) h2
  · exact occursIn_append_left F

/-- Gluing two pattern-free lists is pattern-free when the left list ends in
a character foreign to the pattern. -/
theorem occursB_glue_last {pat X Y : List Char} (hne : pat ≠ [])
    (hX : occursB pat X = false)
    (hlast : ∀ c, X.getLast? = some c → c ∉ pat)
    (hY : occursB pat Y = false) : occursB pat (X ++ Y) = false := by
  rcases Bool.eq_false_or_eq_true (occursB pat (X ++ Y)) with h | h
  case inr => exact h
  exfalso
  have hocc : OccursIn pat (X ++ Y) := h
  rcases List.eq_nil_or_concat X with rfl | ⟨X', c, rfl⟩
  · rw [List.nil_append] at hocc
    exact absurd (show occursB pat Y = true from hocc) (by simp [hY])
  · have hc : c ∉ pat := hlast c (by simp)
    rw [List.concat_eq_append] at hX hocc
    rw [List.append_assoc, List.singleton_append] at hocc
    rcases occursIn_split hne hc hocc with h1 | h1
    · have : OccursIn pat (X' ++ [c]) := occursIn_append_right [c] h1
      exact absurd (show occursB pat (X' ++ [c]) = true from this) (by simp [hX])
    · exact absurd (show occursB pat Y = true from h1) (by simp [hY])

/-- Gluing two pattern-free lists is pattern-free when the right list starts
with a character foreign to the pattern. -/
theorem occursB_glue_head {pat X Y : List Char} (hne : pat ≠ [])
    (hX : occursB pat X = false) (hY : occursB pat Y = false)
    (hhead : ∀ c, Y.head? = some c → c ∉ pat) :
    occursB pat (X ++ Y) = false := by
  cases Y with
  | nil => simpa using hX
  | cons c Y' =>
    rcases Bool.eq_false_or_eq_true (occursB pat (X ++ c :: Y')) with h | h
    case inr => exact h
    exfalso
    have hc : c ∉ pat := hhead c rfl
    rcases occursIn_split hne hc (show OccursIn pat (X ++ c :: Y') from h)
      with h1 | h1
    · exact absurd (show occursB pat X = true from h1) (by simp [hX])
    · have : OccursIn pat ([c] ++ Y') := occursIn_append_left [c] h1
      exact absurd (show occursB pat (c :: Y') = true from this) (by simp [hY])

/-! ### The numeric renderings contain no pattern characters -/

/-- Digit characters are decimal digits. -/
theorem digit_char_mem (n : ℕ) : digit_char n ∈ str_chars "0123456789" := by
  unfold digit_char
  obtain ⟨k, hk⟩ : ∃ k, n % 10 = k := ⟨_, rfl⟩
  have h : k < 10 := hk ▸ Nat.mod_lt _ (by norm_num)
  rw [hk]
  interval_cases k <;> decide

/-- All characters produced by the fueled digit rendering are digits. -/
theorem nat_chars_aux_subset :
    ∀ (fuel n : ℕ), ∀ c ∈ nat_chars_aux fuel n, c ∈ str_chars "0123456789" := by
  intro fuel
  induction fuel with
  | zero => intro n c hc; simp [nat_chars_aux] at hc
  | succ fuel ih =>
    intro n c hc
    unfold nat_chars_aux at hc
    split at hc
    · rw [List.mem_singleton] at hc
      exact hc ▸ digit_char_mem n
    · rcases List.mem_append.mp hc with h | h
      · exact ih _ c h
      · rw [List.mem_singleton] at h
        exact h ▸ digit_char_mem _

/-- All characters of a rendered rational are digits, a sign or a slash. -/
theorem rat_chars_subset (q : ℚ) :
    ∀ c ∈ rat_chars q, c ∈ str_chars "0123456789-/" := by
  have hnat : ∀ (m : ℕ), ∀ c ∈ nat_chars m, c ∈ str_chars "0123456789-/" := by
    intro m c hc
    have h1 := nat_chars_aux_subset (m + 1) m c hc
    have h2 : ∀ c ∈ str_chars "0123456789", c ∈ str_chars "0123456789-/" := by
      decide
    exact h2 c h1
  intro c hc
  unfold rat_chars int_chars at hc
  rcases List.mem_append.mp hc with h | h
  · split at h
    · rcases List.mem_cons.mp h with rfl | h
      · decide
      · exact hnat _ c h
    · exact hnat _ c h
  · split at h
    · simp at h
    · rcases List.mem_cons.mp h with rfl | h
      · decide
      · exact hnat _ c h

/-- No character of a lowered rendered rational is a pattern character of
the energy check. -/
theorem lower_rat_chars_not_energy (q : ℚ) :
    ∀ a ∈ lower_chars (rat_chars q), a ∉ energy_chars := by
  intro a ha
  obtain ⟨c, hc, rfl⟩ := List.mem_map.mp ha
  have h1 := rat_chars_subset q c hc
  have h2 : ∀ c ∈ str_chars "0123456789-/",
      Char.toLower c = c ∧ c ∉ energy_chars := by decide
  rcases h2 c h1 with ⟨he, hn⟩
  rw [he]
  exact hn

/-- The energy pattern does not occur in a lowered rendered rational. -/
theorem occursB_rat_false (q : ℚ) :
    occursB energy_chars (lower_chars (rat_chars q)) = false := by
  rcases Bool.eq_false_or_eq_true
      (occursB energy_chars (lower_chars (rat_chars q))) with h | h
  · exfalso
    have hm : ('e' : Char) ∈ lower_chars (rat_chars q) :=
      occursIn_mem (show OccursIn energy_chars (lower_chars (rat_chars q))
        from h) (by decide)
    exact lower_rat_chars_not_energy q 'e' hm (by decide)
  · exact h

/-- The numeric `lit` segment of a rendered rational satisfies the segment
side condition. -/
theorem lit_ok_rat (q : ℚ) :
    lit_ok energy_chars (.lit (lower_chars (rat_chars q))) := by
  refine ⟨occursB_rat_false q, ?_⟩
  unfold lastFree
  cases hl : (lower_chars (rat_chars q)).getLast? with
  | none => rfl
  | some c =>
    have hc := lower_rat_chars_not_energy q c (List.mem_of_getLast?_eq_some hl)
    show (!(List.elem c energy_chars)) = true
    cases h : List.elem c energy_chars with
    | false => rfl
    | true => exact absurd (List.elem_iff.mp h) hc

/-! ### The chunk-render characterization of the energy check -/

/-- Occurrence of a quote-free pattern in a rendered segment list happens
exactly inside one of the quote-delimited free string segments, provided
every `lit` segment satisfies the segment side condition. -/
theorem occursIn_render_chunks {pat : List Char} (hne : pat ≠ [])
    (hq : '\'' ∉ pat) :
    ∀ (cs : List RChunk), (∀ ch ∈ cs, lit_ok pat ch) →
      (OccursIn pat (render_chunks cs) ↔
        ∃ s, RChunk.str s ∈ cs ∧ OccursIn pat s) := by
  intro cs
  induction cs with
  | nil =>
    intro _
    simp only [render_chunks, occursIn_nil]
    constructor
    · intro h; exact absurd h hne
    · rintro ⟨s, hs, _⟩; simp at hs
  | cons ch rest ih =>
    intro hok
    have hok_rest : ∀ c ∈ rest, lit_ok pat c := fun c hc => hok c (by simp [hc])
    cases ch with
    | lit s =>
      obtain ⟨hs1, hs2⟩ : occursB pat s = false ∧ lastFree pat s = true :=
        hok (RChunk.lit s) (by simp)
      constructor
      · intro h
        rcases List.eq_nil_or_concat s with rfl | ⟨s', c, rfl⟩
        · have h' : OccursIn pat (render_chunks rest) := by
            simpa [render_chunks] using h
          obtain ⟨v, hv, hv2⟩ := (ih hok_rest).mp h'
          exact ⟨v, by simp [hv], hv2⟩
        · have hc : c ∉ pat := by
            rw [List.concat_eq_append] at hs2
            unfold lastFree at hs2
            rw [List.getLast?_concat] at hs2
            have hs3 : (!(List.elem c pat)) = true := hs2
            intro hmem
            rw [List.elem_eq_true_of_mem hmem] at hs3
            simp at hs3
          have h' : OccursIn pat (s' ++ (c :: render_chunks rest)) := by
            have : render_chunks (RChunk.lit (s'.concat c) :: rest) =
                s' ++ (c :: render_chunks rest) := by
              simp [render_chunks, List.concat_eq_append]
            rwa [this] at h
          rcases occursIn_split hne hc h' with h1 | h1
          · exfalso
            have : OccursIn pat (s' ++ [c]) := occursIn_append_right [c] h1
            rw [List.concat_eq_append] at hs1
            exact absurd (show occursB pat (s' ++ [c]) = true from this)
              (by simp [hs1])
          · obtain ⟨v, hv, hv2⟩ := (ih hok_rest).mp h1
            exact ⟨v, by simp [hv], hv2⟩
      · rintro ⟨v, hv, hv2⟩
        rcases List.mem_cons.mp hv with heq | hv'
        · exact absurd heq (by simp)
        · have := (ih hok_rest).mpr ⟨v, hv', hv2⟩
          exact occursIn_append_left s this
    | str v =>
      constructor
      · intro h
        have h0 : OccursIn pat ([] ++ '\'' :: (v ++ '\'' :: render_chunks rest)) := by
          simpa [render_chunks] using h
        rcases occursIn_split hne hq h0 with h1 | h1
        · exact absurd ((occursIn_nil pat).mp h1) hne
        · rcases occursIn_split hne hq h1 with h2 | h2
          · exact ⟨v, by simp, h2⟩
          · obtain ⟨w, hw, hw2⟩ := (ih hok_rest).mp h2
            exact ⟨w, by simp [hw], hw2⟩
      · rintro ⟨w, hw, hw2⟩
        rcases List.mem_cons.mp hw with heq | hw'
        · have hveq : w = v := RChunk.str.inj heq
          subst hveq
          have : OccursIn pat (['\''] ++ (w ++ ('\'' :: render_chunks rest))) :=
            occursIn_append_left ['\'']
              (occursIn_append_right ('\'' :: render_chunks rest) hw2)
          simpa [render_chunks] using this
        · have := (ih hok_rest).mpr ⟨w, hw', hw2⟩
          have h2 : OccursIn pat ((('\'' :: v) ++ ['\'']) ++ render_chunks rest) :=
            occursIn_append_left _ this
          simpa [render_chunks] using h2

/-! ### The chunk lists render to the lowered task string -/

/-- Rendering distributes over segment-list concatenation. -/
theorem render_chunks_append :
    ∀ a b : List RChunk,
      render_chunks (a ++ b) = render_chunks a ++ render_chunks b := by
  intro a b
  induction a with
  | nil => simp [render_chunks]
  | cons ch rest ih =>
    cases ch with
    | lit s => simp [render_chunks, ih]
    | str s => simp [render_chunks, ih]

/-- Lowercasing fixes the quote character. -/
theorem lower_quote : Char.toLower '\'' = '\'' := by decide

/-- Lowercasing distributes over concatenation. -/
theorem lower_chars_append (a b : List Char) :
    lower_chars (a ++ b) = lower_chars a ++ lower_chars b := by
  simp [lower_chars]

/-- Lowercasing a quoted value keeps the quotes in place. -/
theorem lower_chars_quoted (s : List Char) :
    lower_chars (quoted s) = '\'' :: (lower_chars s ++ ['\'']) := by
  simp [lower_chars, quoted, lower_quote]

/-- The factor list renders to its segment list. -/
theorem factors_render (fs : List String) :
    lower_chars (str_list_chars fs) = render_chunks (factors_chunks fs) := by
  induction fs with
  | nil => simp [str_list_chars, factors_chunks, render_chunks, lower_chars]
  | cons f rest ih =>
    cases rest with
    | nil =>
      simp [str_list_chars, factors_chunks, render_chunks, lower_chars_quoted,
        low_s]
    | cons g rest' =>
      have h1 : str_list_chars (f :: g :: rest') =
          quoted (str_chars f) ++ (str_chars ", " ++ str_list_chars (g :: rest')) := by
        simp [str_list_chars, List.append_assoc]
      rw [h1, lower_chars_append, lower_chars_quoted, lower_chars_append, ih]
      simp [factors_chunks, render_chunks, low_s, List.append_assoc]

/-- One material line renders to its segment list. -/
theorem line_render (m : MaterialLine) :
    lower_chars (material_line_chars m) = render_chunks (line_chunks m) := by
  cases hu : m.unit with
  | none =>
    simp [material_line_chars, line_chunks, render_chunks, opt_str_chars,
      opt_str_chunk, hu, lower_chars_append, lower_chars_quoted, low_s,
      List.append_assoc]
  | some u =>
    simp [material_line_chars, line_chunks, render_chunks, opt_str_chars,
      opt_str_chunk, hu, lower_chars_append, lower_chars_quoted, low_s,
      List.append_assoc]

/-- The materials list renders to its segment list. -/
theorem lines_render (ms : List MaterialLine) :
    lower_chars (material_list_chars ms) = render_chunks (lines_chunks ms) := by
  induction ms with
  | nil => simp [material_list_chars, lines_chunks, render_chunks, lower_chars]
  | cons m rest ih =>
    cases rest with
    | nil =>
      simpa [material_list_chars, lines_chunks] using line_render m
    | cons m2 rest' =>
      have h1 : material_list_chars (m :: m2 :: rest') =
          material_line_chars m ++
            (str_chars ", " ++ material_list_chars (m2 :: rest')) := by
        simp [material_list_chars, List.append_assoc]
      have h2 : lines_chunks (m :: m2 :: rest') =
          line_chunks m ++
            (RChunk.lit (low_s ", ") :: lines_chunks (m2 :: rest')) := by
        simp [lines_chunks]
      rw [h1, lower_chars_append, lower_chars_append, line_render m, ih, h2,
        render_chunks_append]
      simp [render_chunks, low_s, List.append_assoc]

/-- The complexity-factors entry (with its key text) renders to its segment
list. -/
theorem complexity_render (cf : Option (List String)) :
    lower_chars (str_chars ", 'complexity_factors': ") ++
      lower_chars (complexity_field_chars cf) =
    render_chunks (complexity_chunks cf) := by
  cases cf with
  | none =>
    have h : str_chars ", 'complexity_factors': " ++ str_chars "None" =
        str_chars ", 'complexity_factors': None" := by decide
    simp only [complexity_field_chars, complexity_chunks, render_chunks,
      low_s, ← lower_chars_append, h]
    simp [lower_chars]
  | some fs =>
    have h : str_chars ", 'complexity_factors': " ++ str_chars "[" =
        str_chars ", 'complexity_factors': [" := by decide
    have h2 : lower_chars (str_chars ", 'complexity_factors': [") =
        lower_chars (str_chars ", 'complexity_factors': ") ++
          lower_chars (str_chars "[") := by
      rw [← lower_chars_append, h]
    simp only [complexity_field_chars, complexity_chunks, render_chunks,
      render_chunks_append, low_s, lower_chars_append, factors_render, h2]
    simp [render_chunks, List.append_assoc, lower_chars]

/-- The error entry renders to its segment list. -/
theorem error_render (err : Option String) :
    lower_chars (error_field_chars err) = render_chunks (error_chunks err) := by
  cases err with
  | none => simp [error_field_chars, error_chunks, render_chunks, lower_chars]
  | some e =>
    simp [error_field_chars, error_chunks, render_chunks, lower_chars_append,
      lower_chars_quoted, low_s]

/-- The whole detailed-task dictionary renders to its segment list. -/
theorem task_render (t : DetailedTask) :
    lower_chars (detailed_task_chars t) = render_chunks (task_chunks t) := by
  have hc := (complexity_render t.complexity_factors).symm
  simp only [detailed_task_chars, task_chunks, List.cons_append,
    List.nil_append, render_chunks_append, render_chunks, lower_chars_append,
    lower_chars_quoted, low_s, lines_render, error_render, hc]
  simp [render_chunks_append, render_chunks, hc, List.append_assoc,
    lower_chars]

/-! ### Which free strings the segment lists carry -/

/-- The free-string segments of one material line are its name and (when
present) its unit. -/
theorem str_mem_line_chunks (m : MaterialLine) (s : List Char) :
    RChunk.str s ∈ line_chunks m ↔
      s = low_s m.name ∨ ∃ u, m.unit = some u ∧ s = low_s u := by
  cases hu : m.unit with
  | none => simp [line_chunks, opt_str_chunk, hu]
  | some u => simp [line_chunks, opt_str_chunk, hu, eq_comm]

/-- The free-string segments of the materials list are those of its lines. -/
theorem str_mem_lines_chunks :
    ∀ (ms : List MaterialLine) (s : List Char),
      (RChunk.str s ∈ lines_chunks ms ↔
        ∃ m ∈ ms, RChunk.str s ∈ line_chunks m) := by
  intro ms
  induction ms with
  | nil => simp [lines_chunks]
  | cons m rest ih =>
    intro s
    cases rest with
    | nil => simp [lines_chunks]
    | cons m2 rest' =>
      have h2 : lines_chunks (m :: m2 :: rest') =
          line_chunks m ++
            (RChunk.lit (low_s ", ") :: lines_chunks (m2 :: rest')) := by
        simp [lines_chunks]
      rw [h2]
      simp only [List.mem_append, List.mem_cons, ih s, List.mem_cons]
      constructor
      · rintro (h | h | h)
        · exact ⟨m, Or.inl rfl, h⟩
        · exact absurd h (by simp)
        · obtain ⟨m', hm', hs⟩ := h
          exact ⟨m', Or.inr hm', hs⟩
      · rintro ⟨m', hm' | hm', hs⟩
        · exact Or.inl (hm' ▸ hs)
        · exact Or.inr (Or.inr ⟨m', hm', hs⟩)

/-- The free-string segments of the factor list are its factors. -/
theorem str_mem_factors_chunks :
    ∀ (fs : List String) (s : List Char),
      (RChunk.str s ∈ factors_chunks fs ↔ ∃ f ∈ fs, s = low_s f) := by
  intro fs
  induction fs with
  | nil => simp [factors_chunks]
  | cons f rest ih =>
    intro s
    cases rest with
    | nil => simp [factors_chunks, eq_comm]
    | cons g rest' =>
      have h2 : factors_chunks (f :: g :: rest') =
          RChunk.str (low_s f) :: RChunk.lit (low_s ", ") ::
            factors_chunks (g :: rest') := by
        simp [factors_chunks]
      rw [h2]
      simp only [List.mem_cons, ih s]
      constructor
      · rintro (h | h | h)
        · exact ⟨f, by simp, RChunk.str.inj h⟩
        · exact absurd h (by simp)
        · obtain ⟨f', hf', hs⟩ := h
          exact ⟨f', by simp [hf'], hs⟩
      · rintro ⟨f', hf' | hf', hs⟩
        · exact Or.inl (by rw [hs, hf'])
        · exact Or.inr (Or.inr ⟨f', hf', hs⟩)

/-- The free-string segments of a present complexity-factors entry are the
factors. -/
theorem str_mem_complexity_chunks (fs : List String) (s : List Char) :
    RChunk.str s ∈ complexity_chunks (some fs) ↔ ∃ f ∈ fs, s = low_s f := by
  simp [complexity_chunks, str_mem_factors_chunks]

/-! ### The segment side conditions on the engine's tasks -/

/-- The numeric segment of a present optional rational is well behaved. -/
theorem lit_ok_opt_rat {o : Option ℚ} (q : ℚ) (ho : o = some q) :
    lit_ok energy_chars (.lit (lower_chars (opt_rat_chars o))) := by
  subst ho
  simpa [opt_rat_chars] using lit_ok_rat q

/-- All `lit` segments of a material line whose optional fields are present
are well behaved. -/
theorem line_chunks_lit_ok (m : MaterialLine)
    (h1 : ∃ q, m.quantity = some q) (h2 : ∃ u, m.unit = some u)
    (h3 : ∃ q, m.unit_cost = some q) :
    ∀ ch ∈ line_chunks m, lit_ok energy_chars ch := by
  obtain ⟨q1, hq1⟩ := h1
  obtain ⟨u, hu⟩ := h2
  obtain ⟨q3, hq3⟩ := h3
  intro ch hch
  simp only [line_chunks, opt_str_chunk, hu, List.mem_cons,
    List.not_mem_nil, or_false] at hch
  rcases hch with rfl | rfl | rfl | rfl | rfl | rfl | rfl | rfl | rfl | rfl | rfl
  · decide
  · trivial
  · decide
  · exact lit_ok_opt_rat q1 hq1
  · decide
  · trivial
  · decide
  · exact lit_ok_opt_rat q3 hq3
  · decide
  · exact lit_ok_rat m.total_cost
  · decide

/-- All `lit` segments of the materials list are well behaved when every
line's optional fields are present. -/
theorem lines_chunks_lit_ok :
    ∀ (ms : List MaterialLine),
      (∀ m ∈ ms, (∃ q, m.quantity = some q) ∧ (∃ u, m.unit = some u) ∧
        (∃ q, m.unit_cost = some q)) →
      ∀ ch ∈ lines_chunks ms, lit_ok energy_chars ch := by
  intro ms
  induction ms with
  | nil => intro _ ch hch; simp [lines_chunks] at hch
  | cons m rest ih =>
    intro h ch hch
    have hm := h m (by simp)
    cases rest with
    | nil =>
      rw [show lines_chunks [m] = line_chunks m from rfl] at hch
      exact line_chunks_lit_ok m hm.1 hm.2.1 hm.2.2 ch hch
    | cons m2 rest' =>
      have h2 : lines_chunks (m :: m2 :: rest') =
          line_chunks m ++
            (RChunk.lit (low_s ", ") :: lines_chunks (m2 :: rest')) := by
        simp [lines_chunks]
      rw [h2] at hch
      rcases List.mem_append.mp hch with hch | hch
      · exact line_chunks_lit_ok m hm.1 hm.2.1 hm.2.2 ch hch
      · rcases List.mem_cons.mp hch with rfl | hch
        · decide
        · exact ih (fun m' hm' => h m' (by simp [hm'])) ch hch

/-- All `lit` segments of the factor list are well behaved. -/
theorem factors_chunks_lit_ok :
    ∀ (fs : List String), ∀ ch ∈ factors_chunks fs,
      lit_ok energy_chars ch := by
  intro fs
  induction fs with
  | nil => intro ch hch; simp [factors_chunks] at hch
  | cons f rest ih =>
    intro ch hch
    cases rest with
    | nil =>
      rw [show factors_chunks [f] = [RChunk.str (low_s f)] from rfl] at hch
      rcases List.mem_singleton.mp hch with rfl
      trivial
    | cons g rest' =>
      have h2 : factors_chunks (f :: g :: rest') =
          RChunk.str (low_s f) :: RChunk.lit (low_s ", ") ::
            factors_chunks (g :: rest') := by
        simp [factors_chunks]
      rw [h2] at hch
      rcases List.mem_cons.mp hch with rfl | hch
      · trivial
      · rcases List.mem_cons.mp hch with rfl | hch
        · decide
        · exact ih ch hch

/-- All `lit` segments of an engine-shaped detailed task are well behaved. -/
theorem task_chunks_lit_ok (t : DetailedTask)
    (hm : ∀ m ∈ t.materials, (∃ q, m.quantity = some q) ∧
      (∃ u, m.unit = some u) ∧ (∃ q, m.unit_cost = some q))
    (fs : List String) (hcf : t.complexity_factors = some fs)
    (herr : t.error = none) :
    ∀ ch ∈ task_chunks t, lit_ok energy_chars ch := by
  intro ch hch
  rw [task_chunks, hcf, herr] at hch
  rw [show error_chunks none = [] from rfl, List.append_nil] at hch
  rcases List.mem_append.mp hch with hch | hch
  · rcases List.mem_append.mp hch with hch | hch
    · rcases List.mem_append.mp hch with hch | hch
      · rcases List.mem_append.mp hch with hch | hch
        · simp only [List.mem_cons, List.not_mem_nil, or_false] at hch
          rcases hch with rfl | rfl | rfl | rfl | rfl | rfl | rfl | rfl |
            rfl | rfl | rfl
          · decide
          · trivial
          · decide
          · trivial
          · decide
          · exact lit_ok_rat t.area_sqm
          · decide
          · exact lit_ok_rat t.labor_hours
          · decide
          · exact lit_ok_rat t.labor_cost
          · decide
        · exact lines_chunks_lit_ok t.materials hm ch hch
      · simp only [List.mem_cons, List.not_mem_nil, or_false] at hch
        rcases hch with rfl | rfl | rfl | rfl
        · decide
        · exact lit_ok_rat t.materials_cost
        · decide
        · trivial
    · rw [complexity_chunks] at hch
      rcases List.mem_cons.mp hch with rfl | hch
      · decide
      · rcases List.mem_append.mp hch with hch | hch
        · exact factors_chunks_lit_ok fs ch hch
        · rcases List.mem_singleton.mp hch with rfl
          decide
  · rcases List.mem_singleton.mp hch with rfl
    decide

/-- The free-string segments of an engine-shaped task's rendering are its
task type, description, material names and units, skill label and
complexity factors. -/
theorem str_mem_task_chunks (t : DetailedTask) (fs : List String)
    (hcf : t.complexity_factors = some fs) (herr : t.error = none)
    (s : List Char) :
    RChunk.str s ∈ task_chunks t ↔
      s = low_s t.task_type ∨ s = low_s t.description ∨
      (∃ m ∈ t.materials,
        s = low_s m.name ∨ ∃ u, m.unit = some u ∧ s = low_s u) ∨
      s = low_s t.skill_required ∨ (∃ f ∈ fs, s = low_s f) := by
  rw [task_chunks, hcf, herr]
  rw [show error_chunks none = [] from rfl, List.append_nil]
  simp only [List.mem_append, List.mem_cons, List.not_mem_nil, or_false,
    str_mem_lines_chunks, str_mem_line_chunks, str_mem_complexity_chunks,
    RChunk.str.injEq]
  simp [eq_comm]
  aesop

/-- Characterization of the engine's per-task energy check for tasks of the
engine's shape: `"energy" in str(task).lower()` holds exactly when "energy"
occurs (case-insensitively) in the task's description, in one of its
complexity factors, or in one of its material names — provided the task
type, skill label and material units do not themselves contain "energy". -/
theorem task_contains_energy_iff (t : DetailedTask)
    (htt : occursB energy_chars (low_s t.task_type) = false)
    (hsk : occursB energy_chars (low_s t.skill_required) = false)
    (hm : ∀ m ∈ t.materials, (∃ q, m.quantity = some q) ∧
      (∃ u, m.unit = some u) ∧ (∃ q, m.unit_cost = some q))
    (humu : ∀ m ∈ t.materials, ∀ u, m.unit = some u →
      occursB energy_chars (low_s u) = false)
    (fs : List String) (hcf : t.complexity_factors = some fs)
    (herr : t.error = none) :
    (task_contains_energy t = true ↔
      OccursIn energy_chars (low_s t.description)
      ∨ (∃ f ∈ fs, OccursIn energy_chars (low_s f))
      ∨ (∃ m ∈ t.materials, OccursIn energy_chars (low_s m.name))) := by
  have hrender := occursIn_render_chunks
    (show energy_chars ≠ [] by decide) (by decide) (task_chunks t)
    (task_chunks_lit_ok t hm fs hcf herr)
  have hmain : task_contains_energy t = true ↔
      OccursIn energy_chars (render_chunks (task_chunks t)) := by
    unfold task_contains_energy OccursIn
    rw [task_render t]
  rw [hmain, hrender]
  constructor
  · rintro ⟨s, hs, hocc⟩
    rcases (str_mem_task_chunks t fs hcf herr s).mp hs with
      rfl | rfl | ⟨m, hmem, rfl | ⟨u, hu, rfl⟩⟩ | rfl | ⟨f, hf, rfl⟩
    · exact absurd (show occursB energy_chars (low_s t.task_type) = true
        from hocc) (by simp [htt])
    · exact Or.inl hocc
    · exact Or.inr (Or.inr ⟨m, hmem, hocc⟩)
    · exact absurd (show occursB energy_chars (low_s u) = true from hocc)
        (by simp [humu m hmem u hu])
    · exact absurd (show occursB energy_chars (low_s t.skill_required) = true
        from hocc) (by simp [hsk])
    · exact Or.inr (Or.inl ⟨f, hf, hocc⟩)
  · rintro (h | ⟨f, hf, h⟩ | ⟨m, hmem, h⟩)
    · exact ⟨low_s t.description,
        (str_mem_task_chunks t fs hcf herr _).mpr (Or.inr (Or.inl rfl)), h⟩
    · exact ⟨low_s f,
        (str_mem_task_chunks t fs hcf herr _).mpr
          (Or.inr (Or.inr (Or.inr (Or.inr ⟨f, hf, rfl⟩)))), h⟩
    · exact ⟨low_s m.name,
        (str_mem_task_chunks t fs hcf herr _).mpr
          (Or.inr (Or.inr (Or.inl ⟨m, hmem, Or.inl rfl⟩))), h⟩

/-! ### Shape facts about engine-generated tasks -/

/-- A successful costing reports the unit of the regionally priced
material. -/
theorem get_cost_with_margin_unit (db : MaterialDatabase) (mid city : String)
    (q : ℚ) (ci : CostInfo)
    (h : get_cost_with_margin db mid q city = .ok ci) :
    ∃ mat, get_material db mid city = some mat ∧ ci.unit = mat.unit := by
  unfold get_cost_with_margin at h
  cases hg : get_material db mid city with
  | none => rw [hg] at h; exact absurd h (by simp)
  | some mat =>
    rw [hg] at h
    cases h
    exact ⟨mat, rfl, rfl⟩

/-- Regional pricing does not change a material's unit. -/
theorem get_material_unit (db : MaterialDatabase) (mid city : String)
    (mat : Material) (h : get_material db mid city = some mat) :
    ∃ base, db.materials.lookup mid = some base ∧ mat.unit = base.unit := by
  unfold get_material at h
  cases hb : db.materials.lookup mid with
  | none => rw [hb] at h; exact absurd h (by simp)
  | some base =>
    rw [hb] at h
    cases h
    exact ⟨base, rfl, rfl⟩

/-- Every material line built by the engine's material loop over the default
catalog has all optional fields present, and its unit (a catalog unit) does
not contain "energy". -/
theorem build_task_materials_shape (area : ℚ) (city : String) :
    ∀ pairs, ∀ line ∈ (build_task_materials defaultMaterialDatabase area city
      pairs).1,
      (∃ q, line.quantity = some q) ∧ (∃ u, line.unit = some u) ∧
      (∃ q, line.unit_cost = some q) ∧
      (∀ u, line.unit = some u →
        occursB energy_chars (low_s u) = false) := by
  intro pairs
  induction pairs with
  | nil => intro line h; simp [build_task_materials] at h
  | cons p rest ih =>
    obtain ⟨mid, qty⟩ := p
    intro line h
    simp only [build_task_materials] at h
    cases hc : get_cost_with_margin defaultMaterialDatabase mid (area * qty)
        city with
    | error e =>
      rw [hc] at h
      exact ih line h
    | ok ci =>
      rw [hc] at h
      rcases List.mem_cons.mp h with rfl | h
      · refine ⟨⟨ci.quantity, rfl⟩, ⟨ci.unit, rfl⟩, ⟨ci.unit_cost, rfl⟩, ?_⟩
        intro u hu
        obtain rfl : u = ci.unit := (Option.some.inj hu).symm
        obtain ⟨mat, hg, hun⟩ := get_cost_with_margin_unit _ _ _ _ _ hc
        obtain ⟨base, hb, hbu⟩ := get_material_unit _ _ _ _ hg
        have hall : ∀ v ∈ default_materials.map Prod.snd,
            occursB energy_chars (low_s v.unit) = false := by decide
        have hunit := lookup_snd_prop _ default_materials hall
          (show default_materials.lookup mid = some base from hb)
        rw [hun, hbu]
        exact hunit
      · exact ih line h

/-- A successful labor computation reports the skill label of its rule-table
entry. -/
theorem calculate_task_labor_skill (tt : String) (a : ℚ) (r : String)
    (c : Option (List String)) (d : Option ℕ) (rb : Bool) (lr : LaborResult)
    (h : calculate_task_labor tt a r c d rb = .ok lr) :
    ∃ td, labor_task_definitions.lookup tt = some td ∧
      lr.skill_required = td.skill_level.value := by
  unfold calculate_task_labor at h
  cases hl : labor_task_definitions.lookup tt with
  | none => rw [hl] at h; exact absurd h (by simp)
  | some td =>
    rw [hl] at h
    cases h
    exact ⟨td, rfl, rfl⟩

/-- No skill label contains "energy". -/
theorem skill_value_no_energy (sl : SkillLevel) :
    occursB energy_chars (low_s sl.value) = false := by
  cases sl <;> decide

/-- Every task produced by the engine satisfies the shape facts needed for
the energy-check characterization: a recognized (hence "energy"-free) task
type, a catalog skill label and units, present optional fields, a present
complexity-factor list and no error entry. -/
theorem engine_task_shape (pd : ParsedData) (t : DetailedTask)
    (ht : t ∈ generate_detailed_tasks pd) :
    occursB energy_chars (low_s t.task_type) = false
    ∧ occursB energy_chars (low_s t.skill_required) = false
    ∧ (∀ m ∈ t.materials, (∃ q, m.quantity = some q) ∧
        (∃ u, m.unit = some u) ∧ (∃ q, m.unit_cost = some q))
    ∧ (∀ m ∈ t.materials, ∀ u, m.unit = some u →
        occursB energy_chars (low_s u) = false)
    ∧ (∃ fs, t.complexity_factors = some fs)
    ∧ t.error = none := by
  obtain ⟨task, _, hp⟩ := List.mem_filterMap.mp ht
  unfold process_task at hp
  cases htt : task.type with
  | none => rw [htt] at hp; exact absurd hp (by simp)
  | some tt =>
    rw [htt] at hp
    simp only [] at hp
    cases htd : engine_task_definitions.lookup tt with
    | none => rw [htd] at hp; exact absurd hp (by simp)
    | some td =>
      rw [htd] at hp
      simp only [] at hp
      cases hlab : calculate_task_labor (py_remove_underscores tt)
          (pd.area_sqm.getD 4) (pd.city.getD "marseille")
          (some (task.complexity_factors.getD [])) none false with
      | error e => rw [hlab] at hp; exact absurd hp (by simp)
      | ok lr =>
        rw [hlab] at hp
        simp only [Option.some.injEq] at hp
        subst hp
        refine ⟨?_, ?_, ?_, ?_, ⟨_, rfl⟩, rfl⟩
        · have hkeys : ∀ k ∈ engine_task_definitions.map Prod.fst,
              occursB energy_chars (low_s k) = false := by decide
          exact lookup_fst_prop _ engine_task_definitions hkeys htd
        · obtain ⟨td2, _, hsk⟩ := calculate_task_labor_skill _ _ _ _ _ _ _ hlab
          show occursB energy_chars (low_s lr.skill_required) = false
          rw [hsk]
          exact skill_value_no_energy td2.skill_level
        · intro m hm
          have h4 := build_task_materials_shape (pd.area_sqm.getD 4)
            (pd.city.getD "marseille") td.materials m hm
          exact ⟨h4.1, h4.2.1, h4.2.2.1⟩
        · intro m hm u hu
          exact (build_task_materials_shape (pd.area_sqm.getD 4)
            (pd.city.getD "marseille") td.materials m hm).2.2.2 u hu

/-! ### Claim C10 -/

/-- C10: on every successful quote computation the VAT resolver receives the
fixed building age 5; the energy-renovation flag is true exactly when
"energy" occurs case-insensitively in the string representation of at least
one detailed task — equivalently (as proved here) in some task's
description, complexity factor, or material name; consequently the VAT rate
of a successful quote is always 10 percent or 5.5 percent and the 20
percent tier is unreachable, and the assembled quote's VAT amount is the
resolver's. -/
theorem c10_vat_age_and_energy_invariant (pd : ParsedData) :
    (quote_vat pd (generate_detailed_tasks pd)).building_age_years = 5
    ∧ ((quote_vat pd (generate_detailed_tasks pd)).vat_rate = 10 / 100 ∨
       (quote_vat pd (generate_detailed_tasks pd)).vat_rate = 55 / 1000)
    ∧ (quote_vat pd (generate_detailed_tasks pd)).vat_rate ≠ 20 / 100
    ∧ ((quote_vat pd (generate_detailed_tasks pd)).is_energy_renovation = true
        ↔ ∃ t ∈ generate_detailed_tasks pd,
            OccursIn energy_chars (low_s t.description)
            ∨ (∃ fs, t.complexity_factors = some fs ∧
                ∃ f ∈ fs, OccursIn energy_chars (low_s f))
            ∨ (∃ m ∈ t.materials, OccursIn energy_chars (low_s m.name)))
    ∧ ∀ now,
        (calculate_final_quote now pd
          (generate_detailed_tasks pd)).vat_amount =
        (quote_vat pd (generate_detailed_tasks pd)).vat_amount := by
  have htasks : ∀ t ∈ generate_detailed_tasks pd,
      (task_contains_energy t = true ↔
        OccursIn energy_chars (low_s t.description)
        ∨ (∃ fs, t.complexity_factors = some fs ∧
            ∃ f ∈ fs, OccursIn energy_chars (low_s f))
        ∨ (∃ m ∈ t.materials, OccursIn energy_chars (low_s m.name))) := by
    intro t ht
    obtain ⟨h1, h2, h3, h4, ⟨fs, hcf⟩, herr⟩ := engine_task_shape pd t ht
    rw [task_contains_energy_iff t h1 h2 h3 h4 fs hcf herr]
    simp [hcf]
  have hrate : (quote_vat pd (generate_detailed_tasks pd)).vat_rate = 10 / 100
      ∨ (quote_vat pd (generate_detailed_tasks pd)).vat_rate = 55 / 1000 := by
    cases hE : (generate_detailed_tasks pd).any task_contains_energy
    · left
      simp [quote_vat, calculate_simple_renovation_vat, hE,
        vat_rate_renovation]
    · right
      simp [quote_vat, calculate_simple_renovation_vat, hE,
        vat_rate_energy_efficiency]
  refine ⟨rfl, hrate, ?_, ?_, fun now => rfl⟩
  · rcases hrate with h | h <;> rw [h] <;> norm_num
  · have hfield : (quote_vat pd (generate_detailed_tasks pd)).is_energy_renovation
        = (generate_detailed_tasks pd).any task_contains_energy := rfl
    rw [hfield, List.any_eq_true]
    constructor
    · rintro ⟨t, ht, h⟩
      exact ⟨t, ht, (htasks t ht).mp h⟩
    · rintro ⟨t, ht, h⟩
      exact ⟨t, ht, (htasks t ht).mpr h⟩
